import Mathlib

/-!
Verification of the Telegram bot Lambda handler (`handler.py`).

The Python source is shallowly embedded: Python `str` is `List Char`,
the DynamoDB table is a list of items keyed by `(user_id, sort_key)`,
outbound HTTP calls (Telegram `sendMessage` / `answerCallbackQuery`,
OpenAI chat completion) are recorded as effects on an explicit state,
and fallible operations (DynamoDB calls, Telegram HTTP calls) return
`Except Err` driven by failure oracles in the configuration, modelling
the exceptions `boto3` / `urllib` can raise.  Library functions that
the source calls (`datetime.fromisoformat`, `strftime`) are abstracted
as function fields of the configuration.
-/

namespace TgBot

/-- Python `str`, modelled as a list of characters. -/
abbrev Str := List Char

/-- Coerce a Lean string literal to the `Str` model. -/
def pys (s : String) : Str := s.data

/-- Python `str` whitespace test, for the ASCII whitespace characters
that `str.split` / `str.strip` treat as separators. -/
def pyIsSpace (c : Char) : Bool :=
  c = ' ' || c = '\t' || c = '\n' || c = '\x0d' || c = '\x0b' || c = '\x0c'

/-- Python `str.strip()` with no arguments: drop leading and trailing
whitespace. -/
def pyStrip (s : Str) : Str :=
  ((s.dropWhile pyIsSpace).reverse.dropWhile pyIsSpace).reverse

/-- Python `str.startswith`. -/
def startsWith (s p : Str) : Bool := p.isPrefixOf s

/-- Python `s.split(maxsplit=m)`: split on runs of whitespace, at most
`m` splits; the final fragment keeps its internal and trailing
whitespace verbatim (leading separator whitespace is consumed). -/
def pySplit (m : Nat) (s : Str) : List Str :=
  let s1 := s.dropWhile pyIsSpace
  if s1 = [] then []
  else
    match m with
    | 0 => [s1]
    | m + 1 =>
        (s1.takeWhile (fun c => !pyIsSpace c)) ::
          pySplit m (s1.dropWhile (fun c => !pyIsSpace c))

/-- Python `sep.join(parts)`. -/
def joinWith (sep : Str) : List Str → Str
  | [] => []
  | [x] => x
  | x :: xs => x ++ sep ++ joinWith sep xs

/-- Decimal digits of a natural number (via `Nat.toDigits`). -/
def natToStr (n : Nat) : Str := Nat.toDigits 10 n

/-- Python `str(i)` for an integer. -/
def intToStr (i : Int) : Str :=
  if i < 0 then '-' :: natToStr i.natAbs else natToStr i.natAbs

/-- Render an optional integer the way Python string interpolation
renders it (`None` for an absent value). -/
def optIntToStr : Option Int → Str
  | none => pys "None"
  | some i => intToStr i

/-- Parse a decimal digit string (nonempty, all digits). -/
def digitsToNat? (s : Str) : Option Nat :=
  if s = [] then none
  else if s.all (fun c => c.isDigit) then
    some (s.foldl (fun a c => a * 10 + (c.toNat - '0'.toNat)) 0)
  else none

/-- Python `int(s)` for a string: strips whitespace, allows one sign,
then decimal digits; returns `none` where Python raises `ValueError`.
(Python's underscore digit-grouping is not modelled; no input in this
development uses it.) -/
def pyInt (s : Str) : Option Int :=
  match pyStrip s with
  | '-' :: rest => (digitsToNat? rest).map (fun n => -(n : Int))
  | '+' :: rest => (digitsToNat? rest).map (fun n => (n : Int))
  | l => (digitsToNat? l).map (fun n => (n : Int))

/-- Python string `<=` (lexicographic by code point). -/
def strLe : Str → Str → Bool
  | [], _ => true
  | _ :: _, [] => false
  | a :: as, b :: bs => if a = b then strLe as bs else decide (a < b)

/-- Python `str.lower()` (ASCII case folding; the source only ever
lowercases search keywords and message text). -/
def lowerStr (s : Str) : Str := s.map Char.toLower

/-- Python `needle in hay` substring containment. -/
def containsSub (hay needle : Str) : Bool :=
  if needle.isPrefixOf hay then true
  else
    match hay with
    | [] => false
    | _ :: t => containsSub t needle

/-- Python truthiness of an optional string (`None` and `""` are
falsy). -/
def truthyOpt : Option Str → Bool
  | none => false
  | some s => !s.isEmpty

/-- Python `o if o is not None else d` via `dict.get(k, d)`. -/
def optD (o : Option Str) (d : Str) : Str := o.getD d

/-! ## Data model -/

/-- A DynamoDB item of the single bot table.  The source stores two
item shapes (`kv#` key/value entries and `msg#` message records); the
attributes absent from a given shape are `none`, modelling the absent
dictionary keys. -/
structure Item where
  user_id : Str
  sort_key : Str
  value : Option Str := none
  updated_at : Option Str := none
  message_id : Option Int := none
  text : Option Str := none
  created_at : Option Str := none
deriving DecidableEq

/-- The DynamoDB table contents. -/
abbrev Table := List Item

/-- Exceptions that the embedded operations can raise: DynamoDB
(`botocore`) errors and network (`urllib`) errors. -/
inductive Err where
  | storage
  | network
deriving DecidableEq

/-- Outcome of the OpenAI chat-completion HTTP request, supplied as an
oracle: a parsed successful reply, an `HTTPError` with a status code,
or any other transport-level exception (including unparseable response
bodies, which the source's blanket `except Exception` also catches). -/
inductive AiOutcome where
  | ok (content : Str)
  | httpError (code : Nat)
  | transportError
deriving DecidableEq

/-- Observable outbound calls made while processing one update. -/
inductive Effect where
  | sendMessage (chat_id : Int) (text : Str)
  | answerCallback (callback_id : Str)
  | openaiRequest (prompt : Str)
deriving DecidableEq

/-- Mutable state threaded through one invocation: the table contents
and the ordered trace of outbound calls. -/
structure St where
  table : Table
  effects : List Effect
deriving DecidableEq

/-- Environment and oracles: credentials (`TELEGRAM_BOT_TOKEN`,
`OPENAI_API_KEY`), failure oracles for the store and the Telegram HTTP
calls, the OpenAI outcome, the value of `now_iso()`, and abstractions
of the `datetime` library functions used by the stats command
(`datetime.now`, `datetime.fromisoformat`, `strftime`), with instants
modelled as integer seconds. -/
structure Ctx where
  token : Option Str
  openai_key : Option Str
  storeFails : Bool
  sendFails : Bool
  aiOutcome : AiOutcome
  now : Str
  nowTime : Int
  parseTs : Str → Option Int
  formatTs : Int → Str

/-! ## Storage primitives

DynamoDB `put_item` / `get_item` / `query` on the single table, keyed
by `(user_id, sort_key)`.  `put_item` overwrites the item with the
same primary key.  `query` with a `begins_with` sort-key condition and
`ScanIndexForward=True` returns the matching items ordered by sort key
ascending.  Each wrapper raises `Err.storage` when the failure oracle
says so. -/

/-- Do two items share a primary key? -/
def sameKey (a b : Item) : Bool :=
  a.user_id = b.user_id && a.sort_key = b.sort_key

/-- Pure `put_item`: overwrite any item with the same primary key. -/
def putItemP (t : Table) (it : Item) : Table :=
  it :: t.filter (fun j => !sameKey j it)

/-- Pure `get_item` by primary key. -/
def getItemP (t : Table) (uid sk : Str) : Option Item :=
  t.find? (fun j => j.user_id = uid && j.sort_key = sk)

/-- Items of the ascending sort-key order used by `query`. -/
def sortKeyAsc (a b : Item) : Prop := strLe a.sort_key b.sort_key = true

instance : DecidableRel sortKeyAsc :=
  fun a b => inferInstanceAs (Decidable (strLe a.sort_key b.sort_key = true))

/-- Pure `query`: all items of one partition whose sort key starts
with `pfx`, ordered by sort key ascending. -/
def queryP (t : Table) (uid pfx : Str) : List Item :=
  List.insertionSort sortKeyAsc
    (t.filter (fun j => j.user_id = uid && pfx.isPrefixOf j.sort_key))

/-- The `table.put_item`, raising on a store failure. -/
def tput (cfg : Ctx) (t : Table) (it : Item) : Except Err Table :=
  if cfg.storeFails then .error .storage else .ok (putItemP t it)

/-- The `table.get_item`, raising on a store failure. -/
def tget (cfg : Ctx) (t : Table) (uid sk : Str) : Except Err (Option Item) :=
  if cfg.storeFails then .error .storage else .ok (getItemP t uid sk)

/-- The `table.query`, raising on a store failure. -/
def tquery (cfg : Ctx) (t : Table) (uid pfx : Str) : Except Err (List Item) :=
  if cfg.storeFails then .error .storage else .ok (queryP t uid pfx)

/-! ## DynamoDB helpers of the source -/

/-- The key/value item written by `save_key_value`. -/
def kvItem (cfg : Ctx) (user_id : Int) (key value : Str) : Item :=
  { user_id := intToStr user_id
    sort_key := pys "kv#" ++ key
    value := some value
    updated_at := some cfg.now }

/-- The `save_key_value(user_id, key, value)`. -/
def save_key_value (cfg : Ctx) (t : Table) (user_id : Int) (key value : Str) :
    Except Err Table :=
  tput cfg t (kvItem cfg user_id key value)

/-- The `get_key_value(user_id, key)`. -/
def get_key_value (cfg : Ctx) (t : Table) (user_id : Int) (key : Str) :
    Except Err (Option Item) :=
  tget cfg t (intToStr user_id) (pys "kv#" ++ key)

/-- The `list_keys(user_id)`: the saved keys, sort-key prefix stripped. -/
def list_keys (cfg : Ctx) (t : Table) (user_id : Int) :
    Except Err (List Str) :=
  match tquery cfg t (intToStr user_id) (pys "kv#") with
  | .error e => .error e
  | .ok items => .ok (items.map (fun i => i.sort_key.drop 3))

/-- The message item written by `save_message_record`. -/
def msgItem (cfg : Ctx) (user_id message_id : Int) (text : Str) : Item :=
  { user_id := intToStr user_id
    sort_key := pys "msg#" ++ intToStr message_id
    message_id := some message_id
    text := some text
    created_at := some cfg.now }

/-- The `save_message_record(user_id, message_id, text)`. -/
def save_message_record (cfg : Ctx) (t : Table) (user_id message_id : Int)
    (text : Str) : Except Err Table :=
  tput cfg t (msgItem cfg user_id message_id text)

/-- The `get_message_by_id(user_id, message_id)`. -/
def get_message_by_id (cfg : Ctx) (t : Table) (user_id message_id : Int) :
    Except Err (Option Item) :=
  tget cfg t (intToStr user_id) (pys "msg#" ++ intToStr message_id)

/-- Pure content of `get_all_messages(user_id)`. -/
def allMessagesP (t : Table) (user_id : Int) : List Item :=
  queryP t (intToStr user_id) (pys "msg#")

/-- The `get_all_messages(user_id)`. -/
def get_all_messages (cfg : Ctx) (t : Table) (user_id : Int) :
    Except Err (List Item) :=
  tquery cfg t (intToStr user_id) (pys "msg#")

/-- The descending `created_at` order of
`sorted(items, key=lambda x: x.get("created_at", ""), reverse=True)`;
`List.insertionSort` with this relation is stable in the same way
CPython's `sorted` with `reverse=True` is. -/
def createdDesc (a b : Item) : Prop :=
  strLe (optD b.created_at []) (optD a.created_at []) = true

instance : DecidableRel createdDesc :=
  fun a b =>
    inferInstanceAs (Decidable (strLe (optD b.created_at []) (optD a.created_at []) = true))

/-- The ascending `created_at` order of
`sorted(notes, key=lambda x: x.get("created_at", ""))`. -/
def createdAsc (a b : Item) : Prop :=
  strLe (optD a.created_at []) (optD b.created_at []) = true

instance : DecidableRel createdAsc :=
  fun a b =>
    inferInstanceAs (Decidable (strLe (optD a.created_at []) (optD b.created_at []) = true))

/-- Pure content of `get_last_messages(user_id, limit)`. -/
def lastMessagesP (t : Table) (user_id : Int) (limit : Nat) : List Item :=
  (List.insertionSort createdDesc (allMessagesP t user_id)).take limit

/-- The `get_last_messages(user_id, limit=5)`. -/
def get_last_messages (cfg : Ctx) (t : Table) (user_id : Int) (limit : Nat) :
    Except Err (List Item) :=
  match get_all_messages cfg t user_id with
  | .error e => .error e
  | .ok _ => .ok (lastMessagesP t user_id limit)

/-- Pure content of `search_messages(user_id, keyword, limit)`. -/
def searchMessagesP (t : Table) (user_id : Int) (keyword : Str) (limit : Nat) :
    List Item :=
  let items := allMessagesP t user_id
  let kw := lowerStr keyword
  let hits := items.filter (fun i =>
    match i.text with
    | some txt => containsSub (lowerStr txt) kw
    | none => false)
  (List.insertionSort createdDesc hits).take limit

/-- The `search_messages(user_id, keyword, limit=20)`. -/
def search_messages (cfg : Ctx) (t : Table) (user_id : Int) (keyword : Str)
    (limit : Nat) : Except Err (List Item) :=
  match get_all_messages cfg t user_id with
  | .error e => .error e
  | .ok _ => .ok (searchMessagesP t user_id keyword limit)

/-- Is a stored item one of the user's notes: its `text` attribute is
a string that, stripped, does not start with the command slash? -/
def isNoteItem (i : Item) : Bool :=
  match i.text with
  | some txt => !startsWith (pyStrip txt) (pys "/")
  | none => false

/-- Pure content of `get_last_notes(user_id, limit)`. -/
def lastNotesP (t : Table) (user_id : Int) (limit : Nat) : List Item :=
  (List.insertionSort createdDesc ((allMessagesP t user_id).filter isNoteItem)).take limit

/-- The `get_last_notes(user_id, limit=10)`. -/
def get_last_notes (cfg : Ctx) (t : Table) (user_id : Int) (limit : Nat) :
    Except Err (List Item) :=
  match get_all_messages cfg t user_id with
  | .error e => .error e
  | .ok _ => .ok (lastNotesP t user_id limit)

/-! ## OpenAI helper -/

/-- The `ask_ai(question)`: returns the not-configured message without any
HTTP request when the credential is falsy; otherwise issues one
chat-completion request and translates its outcome exactly as the
source's `try`/`except` chain does. -/
def ask_ai (cfg : Ctx) (question : Str) (s : St) : Str × St :=
  if !truthyOpt cfg.openai_key then
    (pys "AI is not configured yet. Ask the admin to set OPENAI_API_KEY in Lambda.", s)
  else
    let s' : St := { s with effects := s.effects ++ [.openaiRequest question] }
    match cfg.aiOutcome with
    | .ok content => (content, s')
    | .httpError code =>
        if code = 429 then
          (pys "I'm hitting the OpenAI rate/usage limit right now.\nPlease try again in a bit, or increase your OpenAI quota.", s')
        else
          (pys "OpenAI returned an error. Please try again later.", s')
    | .transportError =>
        (pys "Sorry, I could not get an AI reply right now.", s')

/-! ## Analytics (`compute_personal_stats`) -/

/-- The text used by the stats loop: the item text defaulted to the
empty string, then stripped. -/
def statText (i : Item) : Str := pyStrip (optD i.text [])

/-- The parsed `created_at` instant of an item: skipped when the
attribute is absent or falsy, or when `datetime.fromisoformat`
raises. -/
def parseCreated (cfg : Ctx) (i : Item) : Option Int :=
  match i.created_at with
  | none => none
  | some ts => if ts = [] then none else cfg.parseTs ts

/-- Does the item count towards `msgs_last_7_days`
(`(now - dt).days < 7`, with `timedelta.days` flooring)? -/
def inLast7Days (cfg : Ctx) (i : Item) : Bool :=
  match parseCreated cfg i with
  | some dt => decide (Int.fdiv (cfg.nowTime - dt) 86400 < 7)
  | none => false

/-- Is the stats text a command (starts with the slash)? -/
def isCmdText (i : Item) : Bool := startsWith (statText i) (pys "/")

/-- The command token `text.split(maxsplit=1)[0]`. -/
def cmdTok (i : Item) : Str := (pySplit 1 (statText i)).headD []

/-- The `command_counts[cmd] = command_counts.get(cmd, 0) + 1` on an
insertion-ordered association list, as a Python dict preserves
insertion order. -/
def bump (m : List (Str × Nat)) (k : Str) : List (Str × Nat) :=
  if m.any (fun p => p.1 = k) then
    m.map (fun p => if p.1 = k then (p.1, p.2 + 1) else p)
  else m ++ [(k, 1)]

/-- The `command_counts` mapping accumulated by the stats loop. -/
def commandCounts (items : List Item) : List (Str × Nat) :=
  items.foldl (fun m i => if isCmdText i then bump m (cmdTok i) else m) []

/-- Python `max(pairs, key=lambda kv: kv[1])`: the first pair of
maximal count (a later pair replaces only when strictly greater). -/
def pyMaxBySnd : List (Str × Nat) → Option (Str × Nat)
  | [] => none
  | x :: xs => some (xs.foldl (fun b p => if b.2 < p.2 then p else b) x)

/-- Python `min` over the collected instants. -/
def listMin : List Int → Option Int
  | [] => none
  | x :: xs => some (xs.foldl min x)

/-- Python `max` over the collected instants. -/
def listMax : List Int → Option Int
  | [] => none
  | x :: xs => some (xs.foldl max x)

/-- The `round(x, 1)` scaled by ten: the numerator of the one-decimal
rounding.  (Mathlib's `round` breaks exact ties upward where CPython
banker-rounds; no claim in this development depends on tie cases.) -/
def round1Num (q : Rat) : Int := round (q * 10)

/-- Render the one-decimal average the way Python prints the value of
`round(total/count, 1)` for the nonnegative averages arising here. -/
def ratToStr1 (q : Rat) : Str :=
  let n := (round1Num q).toNat
  natToStr (n / 10) ++ '.' :: natToStr (n % 10)

/-- The report lines built by `compute_personal_stats` for a nonempty
item list: five unconditional lines, then the average-note-length
line only when there is at least one note, the first/latest timestamp
lines only when some timestamp parsed, and the most-used-command line
only when the command tally is nonempty (and its key truthy). -/
def stats_lines (cfg : Ctx) (items : List Item) : List Str :=
  let total_msgs := items.length
  let created_times := items.filterMap (parseCreated cfg)
  let msgs_last_7_days := items.countP (fun i => inLast7Days cfg i)
  let notes_count := items.countP (fun i => !isCmdText i)
  let total_chars_notes :=
    items.foldl (fun a i => if isCmdText i then a else a + (statText i).length) 0
  let base :=
    [pys "📊 *Your Personal Stats*",
     [],
     pys "• Total stored messages: " ++ natToStr total_msgs,
     pys "• Messages in last 7 days: " ++ natToStr msgs_last_7_days,
     pys "• Notes (non-command messages): " ++ natToStr notes_count]
  let avgSeg :=
    if 0 < notes_count then
      [pys "• Avg note length: " ++
        ratToStr1 ((total_chars_notes : Rat) / (notes_count : Rat)) ++
        pys " characters"]
    else []
  let tsSeg :=
    match listMin created_times, listMax created_times with
    | some f, some l =>
        [pys "• First stored message: " ++ cfg.formatTs f,
         pys "• Latest stored message: " ++ cfg.formatTs l]
    | _, _ => []
  let cmdSeg :=
    match pyMaxBySnd (commandCounts items) with
    | some (c, n) =>
        if c = [] then []
        else
          [pys "• Most used command: " ++ c ++ pys " (" ++ natToStr n ++
            pys " times)"]
    | none => []
  base ++ avgSeg ++ tsSeg ++ cmdSeg

/-- The `compute_personal_stats(user_id)`. -/
def compute_personal_stats (cfg : Ctx) (t : Table) (user_id : Int) :
    Except Err Str :=
  match get_all_messages cfg t user_id with
  | .error e => .error e
  | .ok items =>
      if items = [] then
        .ok (pys "No messages stored yet, so I can't compute stats.")
      else
        .ok (joinWith (pys "\n") (stats_lines cfg items))

/-! ## Summarization -/

/-- Truncate a note to 400 characters for the summary prompt
(`txt[:397] + "..."` when longer). -/
def trunc400 (s : Str) : Str :=
  if 400 < s.length then s.take 397 ++ pys "..." else s

/-- One enumerated prompt line: index, dot, bracketed timestamp,
then the truncated note text. -/
def noteLine (idx : Nat) (i : Item) : Str :=
  natToStr idx ++ pys ". [" ++ optD i.created_at [] ++ pys "] " ++
    trunc400 (pyStrip (optD i.text []))

/-- The `enumerate(notes_sorted, start=n)` of the prompt lines. -/
def enumNoteLines : Nat → List Item → List Str
  | _, [] => []
  | n, i :: is => noteLine n i :: enumNoteLines (n + 1) is

/-- The single summarization prompt built from the oldest-first
notes. -/
def summaryPrompt (notes_sorted : List Item) : Str :=
  pys "You are an assistant helping a user with their personal notes.\nBelow are the user's latest notes (messages that are not commands).\nPlease provide a concise summary in 5–7 bullet points, capturing:\n- main themes/topics\n- any tasks or follow-ups implied\n- overall sentiment if relevant.\n\nUser notes:\n" ++
    joinWith (pys "\n") (enumNoteLines 1 notes_sorted)

/-- The `summarize_last_notes(user_id, limit=10)`. -/
def summarize_last_notes (cfg : Ctx) (user_id : Int) (limit : Nat) (s : St) :
    Except Err (Str × St) :=
  match get_last_notes cfg s.table user_id limit with
  | .error e => .error e
  | .ok notes =>
      if notes = [] then
        .ok (pys "I couldn't find any notes to summarise (non-command messages).", s)
      else
        .ok (ask_ai cfg (summaryPrompt (List.insertionSort createdAsc notes)) s)

/-! ## Telegram helpers and command branches -/

/-- The `send_message(chat_id, text)`: one `sendMessage` POST, raising on
a network failure. -/
def send_message (cfg : Ctx) (chat_id : Int) (text : Str) (s : St) :
    Except Err St :=
  if cfg.sendFails then .error .network
  else .ok { s with effects := s.effects ++ [.sendMessage chat_id text] }

/-- The `answer_callback_query(callback_query_id)`. -/
def answer_callback_query (cfg : Ctx) (callback_id : Str) (s : St) :
    Except Err St :=
  if cfg.sendFails then .error .network
  else .ok { s with effects := s.effects ++ [.answerCallback callback_id] }

/-- The `help_text()`. -/
def help_text : Str :=
  pys "Here’s what I can do:\n\n/hello - greet\n/help - this message\n/echo <text> - echo back\n/save <key> <value> - save your data\n/get <key> - retrieve your value\n/list - list saved keys\n/getid <message_id> - fetch specific message\n/search <keyword> - search your messages\n/latest - show your latest note/message\n/history - show your last 5 notes/messages\n/ask <question> - get an AI answer\n/summarize - AI summary of your last 10 notes\n/stats - personal analytics based on your messages\n/menu - show this menu again\n"

/-- Truncate a display snippet at 80 characters
(`snippet[:77] + "..."` when longer). -/
def snip80 (s : Str) : Str :=
  if 80 < s.length then s.take 77 ++ pys "..." else s

/-- The `/start` block. -/
def start_branch (cfg : Ctx) (chat_id : Int) (first_name : Option Str)
    (s : St) : Except Err St :=
  let username :=
    match first_name with
    | some n => if n = [] then pys "there" else n
    | none => pys "there"
  match send_message cfg chat_id (pys "Welcome, " ++ username ++ pys "! 😉") s with
  | .error e => .error e
  | .ok s' => send_message cfg chat_id help_text s'

/-- The `/hello` block. -/
def hello_branch (cfg : Ctx) (chat_id : Int) (s : St) : Except Err St :=
  send_message cfg chat_id (pys "👋 Hello! How can I help you today?") s

/-- The `/help` block. -/
def help_branch (cfg : Ctx) (chat_id : Int) (s : St) : Except Err St :=
  send_message cfg chat_id help_text s

/-- The `/echo` block. -/
def echo_branch (cfg : Ctx) (chat_id : Int) (text : Str) (s : St) :
    Except Err St :=
  match pySplit 1 text with
  | _ :: payload :: _ => send_message cfg chat_id payload s
  | _ => send_message cfg chat_id (pys "Usage: /echo <text>") s

/-- The `/save` block. -/
def save_branch (cfg : Ctx) (chat_id : Int) (text : Str) (s : St) :
    Except Err St :=
  match pySplit 3 text with
  | _ :: key :: v :: rest =>
      let value := if rest = [] then v else joinWith (pys " ") (v :: rest)
      match save_key_value cfg s.table chat_id key value with
      | .error e => .error e
      | .ok t' =>
          send_message cfg chat_id (pys "✅ Saved key '" ++ key ++ pys "'.")
            { s with table := t' }
  | _ =>
      send_message cfg chat_id
        (pys "Usage: /save <key> <value>\nExample: /save email user@example.com") s

/-- The `/get` block (also reached, because dispatch tests string
prefixes, by every text that begins with `/getid`). -/
def get_branch (cfg : Ctx) (chat_id : Int) (text : Str) (s : St) :
    Except Err St :=
  match pySplit 1 text with
  | _ :: key :: _ =>
      match get_key_value cfg s.table chat_id key with
      | .error e => .error e
      | .ok none =>
          send_message cfg chat_id
            (pys "❌ No value found for key '" ++ key ++ pys "'.") s
      | .ok (some item) =>
          send_message cfg chat_id
            (pys "🔑 " ++ key ++ pys " = " ++ optD item.value []) s
  | _ => send_message cfg chat_id (pys "Usage: /get <key>\nExample: /get email") s

/-- The `/list` block. -/
def list_branch (cfg : Ctx) (chat_id : Int) (s : St) : Except Err St :=
  match list_keys cfg s.table chat_id with
  | .error e => .error e
  | .ok keys =>
      if keys = [] then
        send_message cfg chat_id (pys "You have not saved any keys yet.") s
      else
        send_message cfg chat_id
          (pys "Your saved keys:\n" ++
            joinWith (pys "\n") (keys.map (fun k => pys "• " ++ k))) s

/-- The `/getid` block of the source (unreachable from dispatch, since
the `/get` test precedes it and `/getid` starts with `/get`). -/
def getid_branch (cfg : Ctx) (chat_id : Int) (text : Str) (s : St) :
    Except Err St :=
  match pySplit 1 text with
  | _ :: arg :: _ =>
      match pyInt arg with
      | none => send_message cfg chat_id (pys "Message id must be a number.") s
      | some msg_id =>
          match get_message_by_id cfg s.table chat_id msg_id with
          | .error e => .error e
          | .ok none =>
              send_message cfg chat_id
                (pys "No message stored with id " ++ intToStr msg_id ++ pys ".") s
          | .ok (some item) =>
              send_message cfg chat_id
                (pys "🧾 Message " ++ intToStr msg_id ++ pys " (at " ++
                  optD item.created_at [] ++ pys "):\n\n" ++ optD item.text []) s
  | _ => send_message cfg chat_id (pys "Usage: /getid <message_id>") s

/-- The `/search` block. -/
def search_branch (cfg : Ctx) (chat_id : Int) (text : Str) (s : St) :
    Except Err St :=
  match pySplit 1 text with
  | _ :: keyword :: _ =>
      match search_messages cfg s.table chat_id keyword 20 with
      | .error e => .error e
      | .ok hits =>
          if hits = [] then
            send_message cfg chat_id
              (pys "No messages found containing '" ++ keyword ++ pys "'.") s
          else
            send_message cfg chat_id
              (pys "🔍 Search results:\n\n" ++
                joinWith (pys "\n")
                  (hits.map (fun i =>
                    optIntToStr i.message_id ++ pys ": " ++
                      snip80 (optD i.text [])))) s
  | _ =>
      send_message cfg chat_id
        (pys "Usage: /search <keyword>\nExample: /search interview") s

/-- The `/latest` block. -/
def latest_branch (cfg : Ctx) (chat_id : Int) (s : St) : Except Err St :=
  match get_last_messages cfg s.table chat_id 1 with
  | .error e => .error e
  | .ok [] => send_message cfg chat_id (pys "No messages stored yet.") s
  | .ok (item :: _) =>
      send_message cfg chat_id
        (pys "📝 Latest message (at " ++ optD item.created_at [] ++
          pys "):\n\n" ++ optD item.text []) s

/-- One history display line: index, dot, bracketed timestamp, a
newline, then the truncated snippet. -/
def histLine (idx : Nat) (i : Item) : Str :=
  natToStr idx ++ pys ". [" ++ optD i.created_at [] ++ pys "]\n" ++
    snip80 (optD i.text [])

/-- The `enumerate(items, start=n)` of the history lines. -/
def enumHistLines : Nat → List Item → List Str
  | _, [] => []
  | n, i :: is => histLine n i :: enumHistLines (n + 1) is

/-- The `/history` reply for a nonempty item list. -/
def historyReply (items : List Item) : Str :=
  pys "🧾 Your last messages:\n\n" ++
    joinWith (pys "\n\n") (enumHistLines 1 items)

/-- The `/history` block: the limit is the hard-coded default 5; no
argument is parsed. -/
def history_branch (cfg : Ctx) (chat_id : Int) (s : St) : Except Err St :=
  match get_last_messages cfg s.table chat_id 5 with
  | .error e => .error e
  | .ok [] => send_message cfg chat_id (pys "No messages stored yet.") s
  | .ok items => send_message cfg chat_id (historyReply items) s

/-- The `/ask` block. -/
def ask_branch (cfg : Ctx) (chat_id : Int) (text : Str) (s : St) :
    Except Err St :=
  match pySplit 1 text with
  | _ :: question :: _ =>
      let r := ask_ai cfg question s
      send_message cfg chat_id r.1 r.2
  | _ =>
      send_message cfg chat_id
        (pys "Usage: /ask <question>\nExample: /ask What is DynamoDB?") s

/-- The `/summarize` block. -/
def summarize_branch (cfg : Ctx) (chat_id : Int) (s : St) : Except Err St :=
  match summarize_last_notes cfg chat_id 10 s with
  | .error e => .error e
  | .ok (reply, s') => send_message cfg chat_id reply s'

/-- The `/stats` block. -/
def stats_branch (cfg : Ctx) (chat_id : Int) (s : St) : Except Err St :=
  match compute_personal_stats cfg s.table chat_id with
  | .error e => .error e
  | .ok report => send_message cfg chat_id report s

/-- The `/menu` block. -/
def menu_branch (cfg : Ctx) (chat_id : Int) (s : St) : Except Err St :=
  send_message cfg chat_id help_text s

/-- The `handle_text_message(chat_id, message_id, text, first_name)`: the
command dispatcher, matching the stripped text against command strings
by `startswith` in the source's order (`/list` alone is an equality
test), with the catch-all fallback last.  `message_id` is accepted and
unused, as in the source.  No `try`/`except` surrounds any block, so
storage or network exceptions propagate to the caller. -/
def handle_text_message (cfg : Ctx) (chat_id : Int) (message_id : Option Int)
    (text0 : Str) (first_name : Option Str) (s : St) : Except Err St :=
  let text := pyStrip text0
  if startsWith text (pys "/start") then start_branch cfg chat_id first_name s
  else if startsWith text (pys "/hello") then hello_branch cfg chat_id s
  else if startsWith text (pys "/help") then help_branch cfg chat_id s
  else if startsWith text (pys "/echo") then echo_branch cfg chat_id text s
  else if startsWith text (pys "/save") then save_branch cfg chat_id text s
  else if startsWith text (pys "/get") then get_branch cfg chat_id text s
  else if text = pys "/list" then list_branch cfg chat_id s
  else if startsWith text (pys "/getid") then getid_branch cfg chat_id text s
  else if startsWith text (pys "/search") then search_branch cfg chat_id text s
  else if startsWith text (pys "/latest") then latest_branch cfg chat_id s
  else if startsWith text (pys "/history") then history_branch cfg chat_id s
  else if startsWith text (pys "/ask") then ask_branch cfg chat_id text s
  else if startsWith text (pys "/summarize") then summarize_branch cfg chat_id s
  else if startsWith text (pys "/stats") then stats_branch cfg chat_id s
  else if startsWith text (pys "/menu") then menu_branch cfg chat_id s
  else
    send_message cfg chat_id
      (pys "I did not recognise that. Type /help to see all commands.") s

/-- The `handle_callback_query(callback_query)`: acknowledge only. -/
def handle_callback_query (cfg : Ctx) (callback_id : Str) (s : St) :
    Except Err St :=
  answer_callback_query cfg callback_id s

/-! ## Lambda entry point -/

/-- The fields `lambda_handler` extracts from a `message` /
`edited_message` object: `chat.id`, `text` (default `""`),
`message_id`, and the coalesced `first_name or username` display
name. -/
structure Msg where
  chat_id : Option Int
  text : Str
  message_id : Option Int
  first_name : Option Str
deriving DecidableEq

/-- A parsed Telegram update body.  A present `callback_query` carries
its `id`. -/
structure Update where
  callback_query : Option Str
  message : Option Msg
  edited_message : Option Msg
deriving DecidableEq

/-- The inbound event body: either a body that fails `json.loads`, or
a parsed update (an absent body parses as the empty update). -/
inductive Event where
  | badJson
  | parsed (u : Update)
deriving DecidableEq

/-- The JSON bodies `lambda_handler` returns. -/
inductive RBody where
  | okTrue
  | missingToken
  | invalidJson
deriving DecidableEq

/-- The HTTP response of one invocation. -/
structure Response where
  statusCode : Nat
  body : RBody
deriving DecidableEq

/-- The `lambda_handler(event, context)`: reports 500 on a missing bot
token and 400 on an unparseable body; otherwise acknowledges a
callback query, or persists the inbound text (this save alone is
wrapped in `try`/`except` and logged on failure) and dispatches it.
Exceptions raised inside `handle_text_message` or the outbound sends
are not caught here and fault the invocation. -/
def lambda_handler (cfg : Ctx) (ev : Event) (s : St) :
    Except Err (Response × St) :=
  if !truthyOpt cfg.token then .ok (⟨500, .missingToken⟩, s)
  else
    match ev with
    | .badJson => .ok (⟨400, .invalidJson⟩, s)
    | .parsed u =>
        match u.callback_query with
        | some cb =>
            match handle_callback_query cfg cb s with
            | .error e => .error e
            | .ok s' => .ok (⟨200, .okTrue⟩, s')
        | none =>
            match (match u.message with
                   | some m => some m
                   | none => u.edited_message) with
            | none => .ok (⟨200, .okTrue⟩, s)
            | some m =>
                match m.chat_id with
                | none => .ok (⟨200, .okTrue⟩, s)
                | some chat_id =>
                    let s1 :=
                      match m.message_id with
                      | some mid =>
                          if m.text = [] then s
                          else
                            match save_message_record cfg s.table chat_id mid
                                m.text with
                            | .ok t' => { s with table := t' }
                            | .error _ => s
                      | none => s
                    if m.text = [] then
                      match send_message cfg chat_id
                          (pys "Right now I only understand text messages.")
                          s1 with
                      | .error e => .error e
                      | .ok s2 => .ok (⟨200, .okTrue⟩, s2)
                    else
                      match handle_text_message cfg chat_id m.message_id m.text
                          m.first_name s1 with
                      | .error e => .error e
                      | .ok s2 => .ok (⟨200, .okTrue⟩, s2)

/-- The status code of an invocation result, `none` when the
invocation raised. -/
def lhStatus : Except Err (Response × St) → Option Nat
  | .ok (resp, _) => some resp.statusCode
  | .error _ => none

/-! ## Helper lemmas: boolean prefixes -/

lemma isPrefixOf_append_self : ∀ (a b : Str), a.isPrefixOf (a ++ b) = true
  | [], _ => by simp [List.isPrefixOf]
  | c :: a, b => by
      simp only [List.cons_append, List.isPrefixOf, beq_self_eq_true,
        Bool.true_and]
      exact isPrefixOf_append_self a b

lemma eq_append_of_isPrefixOf : ∀ {p s : Str}, p.isPrefixOf s = true →
    ∃ r, s = p ++ r
  | [], s, _ => ⟨s, rfl⟩
  | c :: p, [], h => by simp [List.isPrefixOf] at h
  | c :: p, d :: s, h => by
      simp only [List.isPrefixOf, Bool.and_eq_true, beq_iff_eq] at h
      obtain ⟨r, hr⟩ := eq_append_of_isPrefixOf h.2
      exact ⟨r, by simp [h.1, hr]⟩

lemma isPrefixOf_comparable : ∀ (s p q : Str), p.isPrefixOf s = true →
    q.isPrefixOf s = true → p.isPrefixOf q = true ∨ q.isPrefixOf p = true
  | _, [], q, _, _ => by simp [List.isPrefixOf]
  | _, _ :: _, [], _, _ => by simp [List.isPrefixOf]
  | [], _ :: _, _, h, _ => by simp [List.isPrefixOf] at h
  | c :: s, a :: p, b :: q, h1, h2 => by
      simp only [List.isPrefixOf, Bool.and_eq_true, beq_iff_eq] at h1 h2 ⊢
      rcases isPrefixOf_comparable s p q h1.2 h2.2 with h | h
      · exact .inl ⟨h1.1.trans h2.1.symm, h⟩
      · exact .inr ⟨h2.1.trans h1.1.symm, h⟩

lemma not_isPrefixOf_append {p a : Str} (b : Str)
    (h1 : a.isPrefixOf p = false) (h2 : p.isPrefixOf a = false) :
    p.isPrefixOf (a ++ b) = false := by
  by_contra h
  rcases isPrefixOf_comparable (a ++ b) p a
      (by revert h; cases p.isPrefixOf (a ++ b) <;> simp)
      (isPrefixOf_append_self a b) with hc | hc
  · exact absurd hc (by simp [h2])
  · exact absurd hc (by simp [h1])

/-! ## Helper lemmas: split and strip -/

lemma takeWhile_append_stop {p : Char → Bool} (c : Char) (r : Str)
    (hc : p c = false) :
    ∀ (k : Str), (∀ x ∈ k, p x = true) →
      List.takeWhile p (k ++ c :: r) = k
  | [], _ => by simp [List.takeWhile, hc]
  | x :: k, h => by
      have hx : p x = true := h x (by simp)
      simp only [List.cons_append, List.takeWhile, hx, List.append_eq]
      rw [takeWhile_append_stop c r hc k (fun y hy => h y (by simp [hy]))]

lemma dropWhile_append_stop {p : Char → Bool} (c : Char) (r : Str)
    (hc : p c = false) :
    ∀ (k : Str), (∀ x ∈ k, p x = true) →
      List.dropWhile p (k ++ c :: r) = c :: r
  | [], _ => by simp [List.dropWhile, hc]
  | x :: k, h => by
      have hx : p x = true := h x (by simp)
      simp only [List.cons_append, List.dropWhile, hx, List.append_eq]
      exact dropWhile_append_stop c r hc k (fun y hy => h y (by simp [hy]))

lemma takeWhile_all {p : Char → Bool} :
    ∀ (l : Str), (∀ x ∈ l, p x = true) → List.takeWhile p l = l
  | [], _ => rfl
  | x :: l, h => by
      have hx : p x = true := h x (by simp)
      simp only [List.takeWhile, hx]
      rw [takeWhile_all l (fun y hy => h y (by simp [hy]))]

lemma dropWhile_all {p : Char → Bool} :
    ∀ (l : Str), (∀ x ∈ l, p x = true) → List.dropWhile p l = []
  | [], _ => rfl
  | x :: l, h => by
      have hx : p x = true := h x (by simp)
      simp only [List.dropWhile, hx]
      exact dropWhile_all l (fun y hy => h y (by simp [hy]))

lemma dropWhile_cons_false {p : Char → Bool} {c : Char} (l : Str)
    (h : p c = false) : List.dropWhile p (c :: l) = c :: l := by
  simp [List.dropWhile, h]

/-- Unfolding equation of `pySplit` at `maxsplit` zero. -/
lemma pySplit_zero_eq (s : Str) :
    pySplit 0 s =
      if s.dropWhile pyIsSpace = [] then [] else [s.dropWhile pyIsSpace] :=
  rfl

/-- Unfolding equation of `pySplit` at a positive `maxsplit`. -/
lemma pySplit_succ_eq (m : Nat) (s : Str) :
    pySplit (m + 1) s =
      if s.dropWhile pyIsSpace = [] then []
      else
        (List.takeWhile (fun c => !pyIsSpace c) (s.dropWhile pyIsSpace)) ::
          pySplit m
            (List.dropWhile (fun c => !pyIsSpace c) (s.dropWhile pyIsSpace)) :=
  rfl

/-- The `pySplit` ignores one leading space. -/
lemma pySplit_cons_space (m : Nat) (r : Str) :
    pySplit m (' ' :: r) = pySplit m r := by
  have hdw : List.dropWhile pyIsSpace (' ' :: r) = List.dropWhile pyIsSpace r := by
    simp [List.dropWhile, show pyIsSpace ' ' = true from rfl]
  cases m with
  | zero => rw [pySplit_zero_eq, pySplit_zero_eq, hdw]
  | succ m => rw [pySplit_succ_eq, pySplit_succ_eq, hdw]

/-- The `pySplit` on the empty string. -/
lemma pySplit_nil (m : Nat) : pySplit m [] = [] := by
  cases m with
  | zero => rw [pySplit_zero_eq]; simp [List.dropWhile]
  | succ m => rw [pySplit_succ_eq]; simp [List.dropWhile]

/-- Splitting a leading non-space word off. -/
lemma pySplit_word_cons (m : Nat) (w r : Str) (hw : w ≠ [])
    (hwall : ∀ c ∈ w, pyIsSpace c = false) :
    pySplit (m + 1) (w ++ ' ' :: r) = w :: pySplit m (' ' :: r) := by
  obtain ⟨c, w', rfl⟩ := List.exists_cons_of_ne_nil hw
  have hc : pyIsSpace c = false := hwall c (by simp)
  have hnot : ∀ x ∈ c :: w', (fun y => !pyIsSpace y) x = true := by
    intro x hx
    simp [hwall x hx]
  have hdrop : List.dropWhile pyIsSpace ((c :: w') ++ ' ' :: r) =
      (c :: w') ++ ' ' :: r := by
    rw [List.cons_append]
    exact dropWhile_cons_false _ hc
  rw [pySplit_succ_eq, hdrop, if_neg (by simp),
    takeWhile_append_stop ' ' r rfl (c :: w') hnot,
    dropWhile_append_stop ' ' r rfl (c :: w') hnot]

/-- A single all-non-space word is returned whole at any `maxsplit`. -/
lemma pySplit_single (m : Nat) (w : Str) (hw : w ≠ [])
    (hwall : ∀ c ∈ w, pyIsSpace c = false) : pySplit m w = [w] := by
  obtain ⟨c, w', rfl⟩ := List.exists_cons_of_ne_nil hw
  have hc : pyIsSpace c = false := hwall c (by simp)
  have hnot : ∀ x ∈ c :: w', (fun y => !pyIsSpace y) x = true := by
    intro x hx
    simp [hwall x hx]
  have hdrop : List.dropWhile pyIsSpace (c :: w') = c :: w' :=
    dropWhile_cons_false _ hc
  cases m with
  | zero => rw [pySplit_zero_eq, hdrop, if_neg (by simp)]
  | succ m =>
      rw [pySplit_succ_eq, hdrop, if_neg (by simp), takeWhile_all (c :: w') hnot,
        dropWhile_all (c :: w') hnot, pySplit_nil]

/-- The `pyStrip` is the identity on a string whose first and last
characters are not whitespace. -/
lemma pyStrip_id {s : Str}
    (h1 : ∀ c, s.head? = some c → pyIsSpace c = false)
    (h2 : ∀ c, s.reverse.head? = some c → pyIsSpace c = false) :
    pyStrip s = s := by
  unfold pyStrip
  have hdrop : s.dropWhile pyIsSpace = s := by
    cases s with
    | nil => rfl
    | cons c t => exact dropWhile_cons_false t (h1 c rfl)
  rw [hdrop]
  cases hr : s.reverse with
  | nil => simp [List.reverse_eq_nil_iff.mp hr]
  | cons d u =>
      rw [dropWhile_cons_false u (h2 d (by rw [hr]; rfl)), ← hr,
        List.reverse_reverse]

/-- The `pyStrip` is the identity on `a ++ v` when `a` starts with a
non-space character and `v` is a nonempty all-non-space tail. -/
lemma pyStrip_append_id (a v : Str) (hane : a ≠ [])
    (ha : ∀ c, a.head? = some c → pyIsSpace c = false) (hv : v ≠ [])
    (hvall : ∀ x ∈ v, pyIsSpace x = false) : pyStrip (a ++ v) = a ++ v := by
  apply pyStrip_id
  · intro c hc
    obtain ⟨x, a', rfl⟩ := List.exists_cons_of_ne_nil hane
    simp only [List.cons_append, List.head?_cons, Option.some.injEq] at hc
    exact hc ▸ ha x rfl
  · intro c hc
    rw [List.reverse_append] at hc
    obtain ⟨y, v', hrv⟩ := List.exists_cons_of_ne_nil
      (show v.reverse ≠ [] by simp [hv])
    rw [hrv] at hc
    simp only [List.cons_append, List.head?_cons, Option.some.injEq] at hc
    have hy : y ∈ v := by
      have : y ∈ v.reverse := by rw [hrv]; simp
      simpa using this
    rw [← hc]
    exact hvall y hy

/-! ## Helper lemmas: the lexicographic order -/

lemma strLe_total : ∀ (a b : Str), strLe a b = true ∨ strLe b a = true
  | [], _ => .inl rfl
  | _ :: _, [] => .inr rfl
  | a :: as, b :: bs => by
      by_cases hab : a = b
      · subst hab
        simpa [strLe] using strLe_total as bs
      · rcases lt_trichotomy a b with h | h | h
        · exact .inl (by simp [strLe, hab, h])
        · exact absurd h hab
        · exact .inr (by simp [strLe, Ne.symm hab, h, not_lt_of_lt h])

lemma strLe_trans : ∀ (a b c : Str), strLe a b = true → strLe b c = true →
    strLe a c = true
  | [], _, _, _, _ => rfl
  | _ :: _, [], _, h, _ => by simp [strLe] at h
  | _ :: _, _ :: _, [], _, h2 => by simp [strLe] at h2
  | x :: a, y :: b, z :: c, h1, h2 => by
      by_cases hxy : x = y <;> by_cases hyz : y = z
      · subst hxy
        subst hyz
        simp only [strLe, if_pos rfl] at h1 h2 ⊢
        exact strLe_trans a b c h1 h2
      · subst hxy
        simp only [strLe, if_neg hyz] at h2
        simp [strLe, hyz, of_decide_eq_true h2]
      · subst hyz
        simp only [strLe, if_neg hxy] at h1
        simp [strLe, hxy, of_decide_eq_true h1]
      · simp only [strLe, if_neg hxy, if_neg hyz] at h1 h2
        have hxz : x < z := lt_trans (of_decide_eq_true h1) (of_decide_eq_true h2)
        simp [strLe, ne_of_lt hxz, hxz]

instance : IsTotal Item createdDesc :=
  ⟨fun a b => strLe_total (optD b.created_at []) (optD a.created_at [])⟩

instance : IsTrans Item createdDesc :=
  ⟨fun a b c h1 h2 =>
    strLe_trans (optD c.created_at []) (optD b.created_at [])
      (optD a.created_at []) h2 h1⟩

instance : IsTotal Item createdAsc :=
  ⟨fun a b => strLe_total (optD a.created_at []) (optD b.created_at [])⟩

instance : IsTrans Item createdAsc :=
  ⟨fun a b c h1 h2 =>
    strLe_trans (optD a.created_at []) (optD b.created_at [])
      (optD c.created_at []) h1 h2⟩

/-! ## Helper lemmas: substring containment -/

lemma containsSub_pre_mid_post : ∀ (pre n post : Str),
    containsSub (pre ++ (n ++ post)) n = true
  | [], n, post => by
      rw [containsSub.eq_def]
      simp [isPrefixOf_append_self n post]
  | c :: pre, n, post => by
      rw [containsSub.eq_def]
      rcases h : n.isPrefixOf (c :: pre ++ (n ++ post)) with _ | _
      · simpa [h] using containsSub_pre_mid_post pre n post
      · simp [h]

/-! ## Concrete fixtures used by witnesses and counterexamples -/

/-- A benign configuration: credentials set, no failures. -/
def cfgW : Ctx :=
  { token := some (pys "TOKEN")
    openai_key := some (pys "KEY")
    storeFails := false
    sendFails := false
    aiOutcome := .ok (pys "AI REPLY")
    now := pys "2025-06-01T12:00:00+00:00"
    nowTime := 0
    parseTs := fun _ => none
    formatTs := fun _ => [] }

/-- The empty initial state. -/
def stW : St := { table := [], effects := [] }

/-- A configuration whose store raises on every call. -/
def cfgFail : Ctx :=
  { cfgW with storeFails := true }

/-- Six stored messages for user 42 with increasing timestamps. -/
def tSix : Table :=
  (List.range 6).map (fun n =>
    { user_id := pys "42"
      sort_key := pys "msg#" ++ natToStr n
      message_id := some (n : Int)
      text := some (pys "note " ++ natToStr n)
      created_at := some (pys "2025-01-0" ++ natToStr (n + 1)) })

/-! ## C5: search is scoped to the requesting user -/

/-- C5: every message returned by `search_messages(u, w)` carries
partition key `user_id = str(u)`: the search command never returns
another user's message, because `get_all_messages` queries only the
requester's partition. -/
theorem C5_search_scoped_to_requester (cfg : Ctx) (t : Table) (uid : Int)
    (kw : Str) (lim : Nat) (ms : List Item) (m : Item)
    (hok : search_messages cfg t uid kw lim = Except.ok ms) (hm : m ∈ ms) :
    m.user_id = intToStr uid := by
  have hms : ms = searchMessagesP t uid kw lim := by
    cases hsf : cfg.storeFails with
    | false =>
        rw [search_messages, get_all_messages, tquery, hsf] at hok
        simpa using hok.symm
    | true =>
        rw [search_messages, get_all_messages, tquery, hsf] at hok
        simp at hok
  subst hms
  have h1 : m ∈ List.insertionSort createdDesc
      ((allMessagesP t uid).filter (fun i =>
        match i.text with
        | some txt => containsSub (lowerStr txt) (lowerStr kw)
        | none => false)) := by
    simpa [searchMessagesP] using List.mem_of_mem_take hm
  have h2 : m ∈ allMessagesP t uid :=
    List.mem_of_mem_filter ((List.mem_insertionSort createdDesc).mp h1)
  have h3 : m ∈ t.filter (fun j =>
      j.user_id = intToStr uid && (pys "msg#").isPrefixOf j.sort_key) :=
    (List.mem_insertionSort sortKeyAsc).mp (by simpa [allMessagesP, queryP] using h2)
  have h4 := (List.mem_filter.mp h3).2
  simp only [Bool.and_eq_true, decide_eq_true_eq] at h4
  exact h4.1

/-- C5 witness: a concrete search over `tSix` returns the stored
message of user 42, and the theorem applies to it. -/
theorem C5_search_scoped_witness :
    (tSix.get ⟨3, by decide⟩).user_id = intToStr 42 :=
  C5_search_scoped_to_requester cfgW tSix 42 (pys "NOTE 3") 20
    (searchMessagesP tSix 42 (pys "NOTE 3") 20) (tSix.get ⟨3, by decide⟩)
    rfl (by decide)

/-! ## C9: callback updates produce exactly one outbound call -/

/-- C9: for an update carrying a `callback_query` and no message, the
invocation makes exactly one outbound call, the answer-callback
acknowledgment for that callback id; no send-message call occurs and
the table is unchanged, and the entry point returns HTTP 200. -/
theorem C9_callback_only_acknowledges (cfg : Ctx) (u : Update) (cb : Str)
    (t : Table) (es : List Effect)
    (hcb : u.callback_query = some cb)
    (hmsg : u.message = none) (hed : u.edited_message = none)
    (htok : truthyOpt cfg.token = true) (hsend : cfg.sendFails = false) :
    lambda_handler cfg (Event.parsed u) ⟨t, es⟩ =
      Except.ok (⟨200, RBody.okTrue⟩,
        ⟨t, es ++ [Effect.answerCallback cb]⟩) := by
  rw [lambda_handler]
  rw [htok]
  simp only [Bool.not_true, Bool.false_eq_true, if_false, hcb]
  rw [handle_callback_query, answer_callback_query, hsend]
  simp

/-- C9 witness: the concrete callback update is acknowledged with one
outbound call and status 200. -/
theorem C9_callback_witness :
    lambda_handler cfgW
      (Event.parsed ⟨some (pys "CB1"), none, none⟩) ⟨tSix, []⟩ =
      Except.ok (⟨200, RBody.okTrue⟩,
        ⟨tSix, [Effect.answerCallback (pys "CB1")]⟩) :=
  C9_callback_only_acknowledges cfgW ⟨some (pys "CB1"), none, none⟩
    (pys "CB1") tSix [] rfl rfl rfl (by decide) rfl

/-! ## C6: classification of `ask_ai` outcomes -/

/-- C6 counterexample: the claim says any non-429 HTTP error and any
transport failure both yield the generic "could not get a reply"
message.  In the code a non-429 HTTP error (status 500 here) yields
"OpenAI returned an error. Please try again later.", which does not
contain "could not get", and differs from the transport-failure
message — so the claim as stated is false at this input. -/
theorem C6_counterexample_http500_message :
    (ask_ai { cfgW with aiOutcome := .httpError 500 } (pys "q") stW).1 =
      pys "OpenAI returned an error. Please try again later." ∧
    containsSub (pys "OpenAI returned an error. Please try again later.")
      (pys "could not get") = false ∧
    (ask_ai { cfgW with aiOutcome := .httpError 500 } (pys "q") stW).1 ≠
      (ask_ai { cfgW with aiOutcome := .transportError } (pys "q") stW).1 := by
  refine ⟨rfl, by decide, by decide⟩

/-- C6 amended: `ask_ai` returns the rate-limit "try again" message
exactly on HTTP status 429; on any other HTTP error status it returns
"OpenAI returned an error. Please try again later."; on a transport
failure it returns the generic "could not get an AI reply" message;
and with a falsy credential it returns the "not configured" message
without attempting any HTTP request (state unchanged, no
`openaiRequest` effect). -/
theorem C6_amended_ask_ai_classification (cfg : Ctx) (q : Str) (s : St)
    (code : Nat) :
    (truthyOpt cfg.openai_key = false →
      ask_ai cfg q s =
        (pys "AI is not configured yet. Ask the admin to set OPENAI_API_KEY in Lambda.",
         s)) ∧
    (truthyOpt cfg.openai_key = true → cfg.aiOutcome = .httpError 429 →
      ask_ai cfg q s =
        (pys "I'm hitting the OpenAI rate/usage limit right now.\nPlease try again in a bit, or increase your OpenAI quota.",
         { s with effects := s.effects ++ [Effect.openaiRequest q] })) ∧
    (truthyOpt cfg.openai_key = true → cfg.aiOutcome = .httpError code →
      code ≠ 429 →
      ask_ai cfg q s =
        (pys "OpenAI returned an error. Please try again later.",
         { s with effects := s.effects ++ [Effect.openaiRequest q] })) ∧
    (truthyOpt cfg.openai_key = true → cfg.aiOutcome = .transportError →
      ask_ai cfg q s =
        (pys "Sorry, I could not get an AI reply right now.",
         { s with effects := s.effects ++ [Effect.openaiRequest q] })) := by
  refine ⟨fun hk => ?_, fun hk hai => ?_, fun hk hai hne => ?_, fun hk hai => ?_⟩
  · rw [ask_ai, hk]
    simp
  · rw [ask_ai, hk, hai]
    simp
  · rw [ask_ai, hk, hai]
    simp [hne]
  · rw [ask_ai, hk, hai]
    simp

/-- C6 amended witness: the four classifications at concrete
configurations. -/
theorem C6_amended_witness :
    ask_ai { cfgW with openai_key := none } (pys "q") stW =
      (pys "AI is not configured yet. Ask the admin to set OPENAI_API_KEY in Lambda.",
       stW) ∧
    ask_ai { cfgW with aiOutcome := .httpError 429 } (pys "q") stW =
      (pys "I'm hitting the OpenAI rate/usage limit right now.\nPlease try again in a bit, or increase your OpenAI quota.",
       { stW with effects := [Effect.openaiRequest (pys "q")] }) ∧
    ask_ai { cfgW with aiOutcome := .httpError 503 } (pys "q") stW =
      (pys "OpenAI returned an error. Please try again later.",
       { stW with effects := [Effect.openaiRequest (pys "q")] }) ∧
    ask_ai { cfgW with aiOutcome := .transportError } (pys "q") stW =
      (pys "Sorry, I could not get an AI reply right now.",
       { stW with effects := [Effect.openaiRequest (pys "q")] }) := by
  refine ⟨(C6_amended_ask_ai_classification
      { cfgW with openai_key := none } (pys "q") stW 0).1 rfl, ?_, ?_, ?_⟩
  · exact (C6_amended_ask_ai_classification
      { cfgW with aiOutcome := .httpError 429 } (pys "q") stW 429).2.1
      (by decide) rfl
  · exact (C6_amended_ask_ai_classification
      { cfgW with aiOutcome := .httpError 503 } (pys "q") stW 503).2.2.1
      (by decide) rfl (by decide)
  · exact (C6_amended_ask_ai_classification
      { cfgW with aiOutcome := .transportError } (pys "q") stW 0).2.2.2
      (by decide) rfl

/-! ## C2: error propagation through `handle_text_message` -/

lemma send_message_ok {cfg : Ctx} (h : cfg.sendFails = false)
    (chat : Int) (text : Str) (s : St) :
    send_message cfg chat text s =
      Except.ok { s with effects := s.effects ++ [Effect.sendMessage chat text] } := by
  rw [send_message, h]
  simp

lemma tput_ok {cfg : Ctx} (h : cfg.storeFails = false) (t : Table) (it : Item) :
    tput cfg t it = Except.ok (putItemP t it) := by
  rw [tput, h]
  simp

lemma tget_ok {cfg : Ctx} (h : cfg.storeFails = false) (t : Table)
    (uid sk : Str) : tget cfg t uid sk = Except.ok (getItemP t uid sk) := by
  rw [tget, h]
  simp

lemma tquery_ok {cfg : Ctx} (h : cfg.storeFails = false) (t : Table)
    (uid pfx : Str) : tquery cfg t uid pfx = Except.ok (queryP t uid pfx) := by
  rw [tquery, h]
  simp

lemma start_branch_ok {cfg : Ctx} (hsd : cfg.sendFails = false)
    (chat : Int) (fn : Option Str) (s : St) :
    ∃ s', start_branch cfg chat fn s = Except.ok s' := by
  simp only [start_branch, send_message_ok hsd]
  exact ⟨_, rfl⟩

lemma hello_branch_ok {cfg : Ctx} (hsd : cfg.sendFails = false)
    (chat : Int) (s : St) : ∃ s', hello_branch cfg chat s = Except.ok s' := by
  simp only [hello_branch, send_message_ok hsd]
  exact ⟨_, rfl⟩

lemma help_branch_ok {cfg : Ctx} (hsd : cfg.sendFails = false)
    (chat : Int) (s : St) : ∃ s', help_branch cfg chat s = Except.ok s' := by
  simp only [help_branch, send_message_ok hsd]
  exact ⟨_, rfl⟩

lemma menu_branch_ok {cfg : Ctx} (hsd : cfg.sendFails = false)
    (chat : Int) (s : St) : ∃ s', menu_branch cfg chat s = Except.ok s' := by
  simp only [menu_branch, send_message_ok hsd]
  exact ⟨_, rfl⟩

lemma echo_branch_ok {cfg : Ctx} (hsd : cfg.sendFails = false)
    (chat : Int) (text : Str) (s : St) :
    ∃ s', echo_branch cfg chat text s = Except.ok s' := by
  rcases h : pySplit 1 text with _ | ⟨a, _ | ⟨b, rest⟩⟩ <;>
    simp only [echo_branch, h, send_message_ok hsd] <;>
    exact ⟨_, rfl⟩

lemma save_branch_ok {cfg : Ctx} (hst : cfg.storeFails = false)
    (hsd : cfg.sendFails = false) (chat : Int) (text : Str) (s : St) :
    ∃ s', save_branch cfg chat text s = Except.ok s' := by
  rcases h : pySplit 3 text with _ | ⟨a, _ | ⟨b, _ | ⟨c, rest⟩⟩⟩ <;>
    simp only [save_branch, h, save_key_value, tput_ok hst,
      send_message_ok hsd] <;>
    exact ⟨_, rfl⟩

lemma get_branch_ok {cfg : Ctx} (hst : cfg.storeFails = false)
    (hsd : cfg.sendFails = false) (chat : Int) (text : Str) (s : St) :
    ∃ s', get_branch cfg chat text s = Except.ok s' := by
  rcases h : pySplit 1 text with _ | ⟨a, _ | ⟨b, rest⟩⟩
  · simp only [get_branch, h, send_message_ok hsd]
    exact ⟨_, rfl⟩
  · simp only [get_branch, h, send_message_ok hsd]
    exact ⟨_, rfl⟩
  · rcases hg : getItemP s.table (intToStr chat) (pys "kv#" ++ b) with _ | it <;>
      simp only [get_branch, h, get_key_value, tget_ok hst, hg,
        send_message_ok hsd] <;>
      exact ⟨_, rfl⟩

lemma list_branch_ok {cfg : Ctx} (hst : cfg.storeFails = false)
    (hsd : cfg.sendFails = false) (chat : Int) (s : St) :
    ∃ s', list_branch cfg chat s = Except.ok s' := by
  rcases hks : (queryP s.table (intToStr chat) (pys "kv#")).map
      (fun i => i.sort_key.drop 3) with _ | ⟨k, ks⟩ <;>
    simp only [list_branch, list_keys, tquery_ok hst, hks,
      send_message_ok hsd] <;>
    simp

lemma getid_branch_ok {cfg : Ctx} (hst : cfg.storeFails = false)
    (hsd : cfg.sendFails = false) (chat : Int) (text : Str) (s : St) :
    ∃ s', getid_branch cfg chat text s = Except.ok s' := by
  rcases h : pySplit 1 text with _ | ⟨a, _ | ⟨b, rest⟩⟩
  · simp only [getid_branch, h, send_message_ok hsd]
    exact ⟨_, rfl⟩
  · simp only [getid_branch, h, send_message_ok hsd]
    exact ⟨_, rfl⟩
  · rcases hi : pyInt b with _ | n
    · simp only [getid_branch, h, hi, send_message_ok hsd]
      exact ⟨_, rfl⟩
    · rcases hg : getItemP s.table (intToStr chat) (pys "msg#" ++ intToStr n)
          with _ | it <;>
        simp only [getid_branch, h, hi, get_message_by_id, tget_ok hst, hg,
          send_message_ok hsd] <;>
        exact ⟨_, rfl⟩

lemma search_branch_ok {cfg : Ctx} (hst : cfg.storeFails = false)
    (hsd : cfg.sendFails = false) (chat : Int) (text : Str) (s : St) :
    ∃ s', search_branch cfg chat text s = Except.ok s' := by
  rcases h : pySplit 1 text with _ | ⟨a, _ | ⟨b, rest⟩⟩
  · simp only [search_branch, h, send_message_ok hsd]
    exact ⟨_, rfl⟩
  · simp only [search_branch, h, send_message_ok hsd]
    exact ⟨_, rfl⟩
  · rcases hh : searchMessagesP s.table chat b 20 with _ | ⟨x, xs⟩ <;>
      simp only [search_branch, h, search_messages, get_all_messages,
        tquery_ok hst, hh, send_message_ok hsd] <;>
      simp

lemma latest_branch_ok {cfg : Ctx} (hst : cfg.storeFails = false)
    (hsd : cfg.sendFails = false) (chat : Int) (s : St) :
    ∃ s', latest_branch cfg chat s = Except.ok s' := by
  rcases hl : lastMessagesP s.table chat 1 with _ | ⟨x, xs⟩ <;>
    simp only [latest_branch, get_last_messages, get_all_messages,
      tquery_ok hst, hl, send_message_ok hsd] <;>
    exact ⟨_, rfl⟩

lemma history_branch_ok {cfg : Ctx} (hst : cfg.storeFails = false)
    (hsd : cfg.sendFails = false) (chat : Int) (s : St) :
    ∃ s', history_branch cfg chat s = Except.ok s' := by
  rcases hl : lastMessagesP s.table chat 5 with _ | ⟨x, xs⟩ <;>
    simp only [history_branch, get_last_messages, get_all_messages,
      tquery_ok hst, hl, send_message_ok hsd] <;>
    exact ⟨_, rfl⟩

lemma ask_branch_ok {cfg : Ctx} (hsd : cfg.sendFails = false)
    (chat : Int) (text : Str) (s : St) :
    ∃ s', ask_branch cfg chat text s = Except.ok s' := by
  rcases h : pySplit 1 text with _ | ⟨a, _ | ⟨b, rest⟩⟩ <;>
    simp only [ask_branch, h, send_message_ok hsd] <;>
    exact ⟨_, rfl⟩

lemma summarize_branch_ok {cfg : Ctx} (hst : cfg.storeFails = false)
    (hsd : cfg.sendFails = false) (chat : Int) (s : St) :
    ∃ s', summarize_branch cfg chat s = Except.ok s' := by
  rcases hn : lastNotesP s.table chat 10 with _ | ⟨x, xs⟩ <;>
    simp only [summarize_branch, summarize_last_notes, get_last_notes,
      get_all_messages, tquery_ok hst, hn, send_message_ok hsd] <;>
    simp

lemma stats_branch_ok {cfg : Ctx} (hst : cfg.storeFails = false)
    (hsd : cfg.sendFails = false) (chat : Int) (s : St) :
    ∃ s', stats_branch cfg chat s = Except.ok s' := by
  rcases hq : queryP s.table (intToStr chat) (pys "msg#") with _ | ⟨x, xs⟩ <;>
    simp only [stats_branch, compute_personal_stats, get_all_messages,
      tquery_ok hst, hq, send_message_ok hsd] <;>
    simp

set_option maxHeartbeats 1600000 in
/-- When neither the store nor the Telegram calls fail, every dispatch
outcome of `handle_text_message` succeeds. -/
lemma handle_text_message_ok {cfg : Ctx} (hst : cfg.storeFails = false)
    (hsd : cfg.sendFails = false) (chat : Int) (mid : Option Int)
    (text : Str) (fn : Option Str) (s : St) :
    ∃ s', handle_text_message cfg chat mid text fn s = Except.ok s' := by
  simp only [handle_text_message]
  by_cases h1 : startsWith (pyStrip text) (pys "/start") = true
  · simp only [h1, ite_true]
    exact start_branch_ok hsd _ _ _
  simp only [h1, ite_false]
  by_cases h2 : startsWith (pyStrip text) (pys "/hello") = true
  · simp only [h2, ite_true]
    exact hello_branch_ok hsd _ _
  simp only [h2, ite_false]
  by_cases h3 : startsWith (pyStrip text) (pys "/help") = true
  · simp only [h3, ite_true]
    exact help_branch_ok hsd _ _
  simp only [h3, ite_false]
  by_cases h4 : startsWith (pyStrip text) (pys "/echo") = true
  · simp only [h4, ite_true]
    exact echo_branch_ok hsd _ _ _
  simp only [h4, ite_false]
  by_cases h5 : startsWith (pyStrip text) (pys "/save") = true
  · simp only [h5, ite_true]
    exact save_branch_ok hst hsd _ _ _
  simp only [h5, ite_false]
  by_cases h6 : startsWith (pyStrip text) (pys "/get") = true
  · simp only [h6, ite_true]
    exact get_branch_ok hst hsd _ _ _
  simp only [h6, ite_false]
  by_cases h7 : pyStrip text = pys "/list"
  · simp only [h7, ite_true]
    exact list_branch_ok hst hsd _ _
  simp only [h7, ite_false]
  by_cases h8 : startsWith (pyStrip text) (pys "/getid") = true
  · simp only [h8, ite_true]
    exact getid_branch_ok hst hsd _ _ _
  simp only [h8, ite_false]
  by_cases h9 : startsWith (pyStrip text) (pys "/search") = true
  · simp only [h9, ite_true]
    exact search_branch_ok hst hsd _ _ _
  simp only [h9, ite_false]
  by_cases h10 : startsWith (pyStrip text) (pys "/latest") = true
  · simp only [h10, ite_true]
    exact latest_branch_ok hst hsd _ _
  simp only [h10, ite_false]
  by_cases h11 : startsWith (pyStrip text) (pys "/history") = true
  · simp only [h11, ite_true]
    exact history_branch_ok hst hsd _ _
  simp only [h11, ite_false]
  by_cases h12 : startsWith (pyStrip text) (pys "/ask") = true
  · simp only [h12, ite_true]
    exact ask_branch_ok hsd _ _ _
  simp only [h12, ite_false]
  by_cases h13 : startsWith (pyStrip text) (pys "/summarize") = true
  · simp only [h13, ite_true]
    exact summarize_branch_ok hst hsd _ _
  simp only [h13, ite_false]
  by_cases h14 : startsWith (pyStrip text) (pys "/stats") = true
  · simp only [h14, ite_true]
    exact stats_branch_ok hst hsd _ _
  simp only [h14, ite_false]
  by_cases h15 : startsWith (pyStrip text) (pys "/menu") = true
  · simp only [h15, ite_true]
    exact menu_branch_ok hsd _ _
  simp only [h15, ite_false]
  exact ⟨_, send_message_ok hsd _ _ _⟩

/-- C2 counterexample: with a failing store, the storage exception
raised inside the `/save` handler is not caught at the handler
boundary: it propagates out of `handle_text_message` and out of
`lambda_handler`, which therefore does not return HTTP 200 even though
the inbound body parsed.  (The guarded `save_message_record` failure
alone is caught and logged.) -/
theorem C2_counterexample_save_propagates :
    handle_text_message cfgFail 42 (some 7) (pys "/save a b") none stW =
      Except.error Err.storage ∧
    lambda_handler cfgFail
      (Event.parsed ⟨none, some ⟨some 42, pys "/save a b", some 7, none⟩, none⟩)
      stW = Except.error Err.storage := by
  exact ⟨rfl, rfl⟩

/-- C2 amended: only the pre-dispatch `save_message_record` call is
guarded by `try`/`except`; a storage or network failure inside a
command handler propagates out of `handle_text_message` and faults the
invocation.  When no storage or network failure occurs, every parsed
update is acknowledged with HTTP 200. -/
theorem C2_amended_ok_only_without_failures (cfg : Ctx) (u : Update) (s : St)
    (hst : cfg.storeFails = false) (hsd : cfg.sendFails = false)
    (htok : truthyOpt cfg.token = true) :
    lhStatus (lambda_handler cfg (Event.parsed u) s) = some 200 := by
  rcases u with ⟨cb, msg, emsg⟩
  rcases cb with _ | cbid
  · rcases hm : (match msg with
        | some m => some m
        | none => emsg) with _ | m
    · simp only [lambda_handler, htok, Bool.not_true, Bool.false_eq_true,
        if_false, hm, lhStatus]
    · rcases m with ⟨cid, mtext, mmid, mfn⟩
      rcases cid with _ | chat
      · simp only [lambda_handler, htok, Bool.not_true, Bool.false_eq_true,
          if_false, hm, lhStatus]
      · have hs1ok : ∀ s1 : St, lhStatus
            (if mtext = [] then
               match send_message cfg chat
                   (pys "Right now I only understand text messages.") s1 with
               | .error e => .error e
               | .ok s2 => .ok (⟨200, .okTrue⟩, s2)
             else
               match handle_text_message cfg chat mmid mtext mfn s1 with
               | .error e => .error e
               | .ok s2 => .ok (⟨200, .okTrue⟩, s2)) = some 200 := by
          intro s1
          by_cases htext : mtext = []
          · rw [if_pos htext, send_message_ok hsd]
            rfl
          · rw [if_neg htext]
            obtain ⟨s', hs'⟩ := handle_text_message_ok hst hsd chat mmid mtext mfn s1
            rw [hs']
            rfl
        simp only [lambda_handler, htok, Bool.not_true, Bool.false_eq_true,
          if_false, hm]
        exact hs1ok _
  · simp only [lambda_handler, htok, Bool.not_true, Bool.false_eq_true,
      if_false, handle_callback_query, answer_callback_query, hsd, lhStatus]

/-- C2 amended witness: a concrete `/save` update under the benign
configuration is acknowledged with HTTP 200. -/
theorem C2_amended_witness :
    lhStatus (lambda_handler cfgW
      (Event.parsed ⟨none, some ⟨some 42, pys "/save a b", some 7, none⟩, none⟩)
      stW) = some 200 :=
  C2_amended_ok_only_without_failures cfgW
    ⟨none, some ⟨some 42, pys "/save a b", some 7, none⟩, none⟩ stW
    rfl rfl (by decide)

/-! ## C10: dispatch is by string prefix in source order -/

/-- C10: command dispatch matches by `startswith` in the source's
fixed order, so the first matching prefix handles the text even when
extra characters follow.  Every stripped text beginning with `/getid`
also begins with `/get` and is therefore handled by the `/get`
key-lookup branch, making the `/getid` branch unreachable; and a text
beginning with `/hello`, e.g. `/helloworld`, is answered by the
`/hello` greeting branch. -/
theorem C10_startswith_dispatch_shadows_getid (cfg : Ctx) (chat : Int)
    (mid : Option Int) (fn : Option Str) (s : St) (text : Str)
    (h : startsWith (pyStrip text) (pys "/getid") = true) :
    handle_text_message cfg chat mid text fn s =
      get_branch cfg chat (pyStrip text) s ∧
    handle_text_message cfg chat mid (pys "/helloworld") fn s =
      hello_branch cfg chat s := by
  constructor
  · obtain ⟨r, hr⟩ := eq_append_of_isPrefixOf h
    simp only [handle_text_message, hr,
      show startsWith (pys "/getid" ++ r) (pys "/start") = false from rfl,
      show startsWith (pys "/getid" ++ r) (pys "/hello") = false from rfl,
      show startsWith (pys "/getid" ++ r) (pys "/help") = false from rfl,
      show startsWith (pys "/getid" ++ r) (pys "/echo") = false from rfl,
      show startsWith (pys "/getid" ++ r) (pys "/save") = false from rfl,
      show startsWith (pys "/getid" ++ r) (pys "/get") = true from rfl,
      Bool.false_eq_true, ite_true, ite_false]
  · rfl

/-- C10 witness: the concrete text `/getid 7` is handled by the
`/get` branch. -/
theorem C10_startswith_dispatch_witness :
    handle_text_message cfgW 42 (some 1) (pys "/getid 7") none stW =
      get_branch cfgW 42 (pyStrip (pys "/getid 7")) stW ∧
    handle_text_message cfgW 42 (some 1) (pys "/helloworld") none stW =
      hello_branch cfgW 42 stW :=
  C10_startswith_dispatch_shadows_getid cfgW 42 (some 1) none stW
    (pys "/getid 7") (by decide)

/-! ## C3: the `/getid` contract is not what the code does -/

/-- The key/value lookup reply that the `/get` branch produces for a
given key. -/
def kvLookupReply (t : Table) (chat : Int) (key : Str) : Str :=
  match getItemP t (intToStr chat) (pys "kv#" ++ key) with
  | none => pys "❌ No value found for key '" ++ key ++ pys "'."
  | some item => pys "🔑 " ++ key ++ pys " = " ++ optD item.value []

/-- C3 counterexample: `/getid abc` does not reply "Message id must be
a number."; because dispatch tests `/get` first, it performs a
key/value lookup for key `abc` and replies with the key-not-found
message. -/
theorem C3_counterexample_getid_abc :
    handle_text_message cfgW 42 (some 1) (pys "/getid abc") none stW =
      Except.ok ⟨[], [Effect.sendMessage 42
        (pys "❌ No value found for key 'abc'.")]⟩ ∧
    pys "❌ No value found for key 'abc'." ≠
      pys "Message id must be a number." :=
  ⟨rfl, by decide⟩

/-- C3 amended: a text `/getid <arg>` is captured by the earlier
`/get` prefix branch, so the reply is the key/value lookup reply for
key `<arg>` (`🔑 <arg> = <value>` or the key-not-found message); the
`/getid` branch's numeric-argument parsing and message lookup are
unreachable from dispatch. -/
theorem C3_amended_getid_is_key_lookup (cfg : Ctx) (chat : Int)
    (mid : Option Int) (fn : Option Str) (t : Table) (a : Str)
    (hst : cfg.storeFails = false) (hsd : cfg.sendFails = false)
    (ha : a ≠ []) (haa : ∀ c ∈ a, pyIsSpace c = false) :
    handle_text_message cfg chat mid (pys "/getid " ++ a) fn ⟨t, []⟩ =
      Except.ok ⟨t, [Effect.sendMessage chat (kvLookupReply t chat a)]⟩ := by
  have hstrip : pyStrip (pys "/getid " ++ a) = pys "/getid " ++ a := by
    refine pyStrip_append_id (pys "/getid ") a (by decide) ?_ ha haa
    intro c hc
    rw [show (pys "/getid ").head? = some '/' from rfl] at hc
    simp only [Option.some.injEq] at hc
    subst hc
    rfl
  have hsplit : pySplit 1 (pys "/getid " ++ a) = [pys "/getid", a] := by
    show pySplit 1 (pys "/getid" ++ ' ' :: a) = [pys "/getid", a]
    rw [pySplit_word_cons 0 (pys "/getid") a (by decide) (by decide),
      pySplit_cons_space, pySplit_single 0 a ha haa]
  simp only [handle_text_message, hstrip,
    show startsWith (pys "/getid " ++ a) (pys "/start") = false from rfl,
    show startsWith (pys "/getid " ++ a) (pys "/hello") = false from rfl,
    show startsWith (pys "/getid " ++ a) (pys "/help") = false from rfl,
    show startsWith (pys "/getid " ++ a) (pys "/echo") = false from rfl,
    show startsWith (pys "/getid " ++ a) (pys "/save") = false from rfl,
    show startsWith (pys "/getid " ++ a) (pys "/get") = true from rfl,
    Bool.false_eq_true, ite_true, ite_false]
  rcases hgi : getItemP t (intToStr chat) (pys "kv#" ++ a) with _ | it <;>
    simp only [get_branch, hsplit, get_key_value, tget_ok hst, hgi,
      kvLookupReply, send_message_ok hsd] <;>
    simp

/-- C3 amended witness: the concrete lookup `/getid abc` over `tSix`
(which stores no `kv#abc` entry) replies with the key-not-found
message. -/
theorem C3_amended_witness :
    handle_text_message cfgW 42 (some 1) (pys "/getid abc") none
      ⟨tSix, []⟩ =
      Except.ok ⟨tSix, [Effect.sendMessage 42
        (kvLookupReply tSix 42 (pys "abc"))]⟩ :=
  C3_amended_getid_is_key_lookup cfgW 42 (some 1) none tSix (pys "abc")
    rfl rfl (by decide) (by decide)

/-! ## C1: save then get is last-write-wins -/

lemma getItemP_put_same (t : Table) (it : Item) (uid sk : Str)
    (h1 : it.user_id = uid) (h2 : it.sort_key = sk) :
    getItemP (putItemP t it) uid sk = some it := by
  subst h1
  subst h2
  rw [getItemP, putItemP, List.find?_cons_of_pos _ (by simp)]

/-- Reduction of a well-formed `/save <key> <value>` text through the
dispatcher: the key/value item is written and the confirmation is the
only outbound call. -/
lemma save_cmd_reduce {cfg : Ctx} (hst : cfg.storeFails = false)
    (hsd : cfg.sendFails = false) (chat : Int) (mid : Option Int)
    (fn : Option Str) (k v : Str) (t : Table)
    (hk : k ≠ []) (hka : ∀ c ∈ k, pyIsSpace c = false)
    (hv : v ≠ []) (hva : ∀ c ∈ v, pyIsSpace c = false) :
    handle_text_message cfg chat mid (pys "/save " ++ k ++ ' ' :: v) fn
      ⟨t, []⟩ =
      Except.ok ⟨putItemP t (kvItem cfg chat k v),
        [Effect.sendMessage chat (pys "✅ Saved key '" ++ k ++ pys "'.")]⟩ := by
  have hstrip : pyStrip (pys "/save " ++ k ++ ' ' :: v) =
      pys "/save " ++ k ++ ' ' :: v := by
    have h := pyStrip_append_id (pys "/save " ++ (k ++ [' '])) v
      (by simp)
      (by
        intro c hc
        rw [show (pys "/save " ++ (k ++ [' '])).head? = some '/' from rfl] at hc
        simp only [Option.some.injEq] at hc
        subst hc
        rfl)
      hv hva
    simpa [List.append_assoc] using h
  have hsplit : pySplit 3 (pys "/save " ++ k ++ ' ' :: v) =
      [pys "/save", k, v] := by
    show pySplit 3 (pys "/save" ++ ' ' :: (k ++ ' ' :: v)) = [pys "/save", k, v]
    rw [pySplit_word_cons 2 (pys "/save") (k ++ ' ' :: v) (by decide) (by decide),
      pySplit_cons_space, pySplit_word_cons 1 k v hk hka, pySplit_cons_space,
      pySplit_single 1 v hv hva]
  simp only [handle_text_message, hstrip,
    show startsWith (pys "/save " ++ k ++ ' ' :: v) (pys "/start") = false from rfl,
    show startsWith (pys "/save " ++ k ++ ' ' :: v) (pys "/hello") = false from rfl,
    show startsWith (pys "/save " ++ k ++ ' ' :: v) (pys "/help") = false from rfl,
    show startsWith (pys "/save " ++ k ++ ' ' :: v) (pys "/echo") = false from rfl,
    show startsWith (pys "/save " ++ k ++ ' ' :: v) (pys "/save") = true from rfl,
    Bool.false_eq_true, ite_true, ite_false]
  simp only [save_branch, hsplit, save_key_value, tput_ok hst,
    send_message_ok hsd]
  simp

/-- Reduction of a well-formed `/get <key>` text through the
dispatcher: the reply is the key/value lookup reply and the table is
unchanged. -/
lemma get_cmd_reduce {cfg : Ctx} (hst : cfg.storeFails = false)
    (hsd : cfg.sendFails = false) (chat : Int) (mid : Option Int)
    (fn : Option Str) (k : Str) (t : Table)
    (hk : k ≠ []) (hka : ∀ c ∈ k, pyIsSpace c = false) :
    handle_text_message cfg chat mid (pys "/get " ++ k) fn ⟨t, []⟩ =
      Except.ok ⟨t, [Effect.sendMessage chat (kvLookupReply t chat k)]⟩ := by
  have hstrip : pyStrip (pys "/get " ++ k) = pys "/get " ++ k := by
    refine pyStrip_append_id (pys "/get ") k (by decide) ?_ hk hka
    intro c hc
    rw [show (pys "/get ").head? = some '/' from rfl] at hc
    simp only [Option.some.injEq] at hc
    subst hc
    rfl
  have hsplit : pySplit 1 (pys "/get " ++ k) = [pys "/get", k] := by
    show pySplit 1 (pys "/get" ++ ' ' :: k) = [pys "/get", k]
    rw [pySplit_word_cons 0 (pys "/get") k (by decide) (by decide),
      pySplit_cons_space, pySplit_single 0 k hk hka]
  simp only [handle_text_message, hstrip,
    show startsWith (pys "/get " ++ k) (pys "/start") = false from rfl,
    show startsWith (pys "/get " ++ k) (pys "/hello") = false from rfl,
    show startsWith (pys "/get " ++ k) (pys "/help") = false from rfl,
    show startsWith (pys "/get " ++ k) (pys "/echo") = false from rfl,
    show startsWith (pys "/get " ++ k) (pys "/save") = false from rfl,
    show startsWith (pys "/get " ++ k) (pys "/get") = true from rfl,
    Bool.false_eq_true, ite_true, ite_false]
  rcases hgi : getItemP t (intToStr chat) (pys "kv#" ++ k) with _ | it <;>
    simp only [get_branch, hsplit, get_key_value, tget_ok hst, hgi,
      kvLookupReply, send_message_ok hsd] <;>
    simp

/-- C1: saving `(u, k, v1)` and later `(u, k, v2)` through the `/save`
handler leaves the storage entry holding `v2` (the put overwrites the
item with the same primary key), and a subsequent `/get k` replies
with `🔑 k = v2`, the last saved value.  The save confirmation
contains `Saved key '<k>'.` and the get reply contains `<k> = <v2>`,
matching the concrete `color`/`blue` example at the witness. -/
theorem C1_save_get_last_write_wins (cfg : Ctx) (chat : Int)
    (mid1 mid2 mid3 : Option Int) (fn : Option Str) (k v1 v2 : Str)
    (t : Table)
    (hst : cfg.storeFails = false) (hsd : cfg.sendFails = false)
    (hk : k ≠ []) (hka : ∀ c ∈ k, pyIsSpace c = false)
    (hv1 : v1 ≠ []) (hv1a : ∀ c ∈ v1, pyIsSpace c = false)
    (hv2 : v2 ≠ []) (hv2a : ∀ c ∈ v2, pyIsSpace c = false) :
    handle_text_message cfg chat mid1 (pys "/save " ++ k ++ ' ' :: v1) fn
        ⟨t, []⟩ =
      Except.ok ⟨putItemP t (kvItem cfg chat k v1),
        [Effect.sendMessage chat (pys "✅ Saved key '" ++ k ++ pys "'.")]⟩ ∧
    handle_text_message cfg chat mid2 (pys "/save " ++ k ++ ' ' :: v2) fn
        ⟨putItemP t (kvItem cfg chat k v1), []⟩ =
      Except.ok ⟨putItemP (putItemP t (kvItem cfg chat k v1)) (kvItem cfg chat k v2),
        [Effect.sendMessage chat (pys "✅ Saved key '" ++ k ++ pys "'.")]⟩ ∧
    handle_text_message cfg chat mid3 (pys "/get " ++ k) fn
        ⟨putItemP (putItemP t (kvItem cfg chat k v1)) (kvItem cfg chat k v2), []⟩ =
      Except.ok ⟨putItemP (putItemP t (kvItem cfg chat k v1)) (kvItem cfg chat k v2),
        [Effect.sendMessage chat (pys "🔑 " ++ k ++ pys " = " ++ v2)]⟩ ∧
    containsSub (pys "✅ Saved key '" ++ k ++ pys "'.")
      (pys "Saved key '" ++ k ++ pys "'.") = true ∧
    containsSub (pys "🔑 " ++ k ++ pys " = " ++ v2)
      (k ++ pys " = " ++ v2) = true := by
  refine ⟨save_cmd_reduce hst hsd chat mid1 fn k v1 t hk hka hv1 hv1a,
    save_cmd_reduce hst hsd chat mid2 fn k v2 _ hk hka hv2 hv2a, ?_, ?_, ?_⟩
  · have hget := get_cmd_reduce hst hsd chat mid3 fn k
      (putItemP (putItemP t (kvItem cfg chat k v1)) (kvItem cfg chat k v2))
      hk hka
    have hrep : kvLookupReply
        (putItemP (putItemP t (kvItem cfg chat k v1)) (kvItem cfg chat k v2))
        chat k = pys "🔑 " ++ k ++ pys " = " ++ v2 := by
      rw [kvLookupReply,
        getItemP_put_same _ (kvItem cfg chat k v2) (intToStr chat)
          (pys "kv#" ++ k) rfl rfl]
      simp [kvItem, optD]
    rw [hrep] at hget
    exact hget
  · have h := containsSub_pre_mid_post (pys "✅ ")
      (pys "Saved key '" ++ (k ++ pys "'.")) []
    rw [List.append_nil] at h
    simpa [List.append_assoc] using h
  · have h := containsSub_pre_mid_post (pys "🔑 ")
      (k ++ (pys " = " ++ v2)) []
    rw [List.append_nil] at h
    simpa [List.append_assoc] using h

/-- C1 witness: the concrete instance of the claim's example, key
`color` saved by user 42 with value `blue` (then overwritten), the
confirmation reply, and the get reply containing `<key> = <last
value>`. -/
theorem C1_save_get_witness :
    handle_text_message cfgW 42 (some 1) (pys "/save color blue") none
        ⟨[], []⟩ =
      Except.ok ⟨putItemP [] (kvItem cfgW 42 (pys "color") (pys "blue")),
        [Effect.sendMessage 42 (pys "✅ Saved key 'color'.")]⟩ ∧
    containsSub (pys "🔑 color = blue2") (pys "color = blue2") = true :=
  ⟨(C1_save_get_last_write_wins cfgW 42 (some 1) (some 2) (some 3) none
      (pys "color") (pys "blue") (pys "blue2") [] rfl rfl (by decide)
      (by decide) (by decide) (by decide) (by decide) (by decide)).1,
   (C1_save_get_last_write_wins cfgW 42 (some 1) (some 2) (some 3) none
      (pys "color") (pys "blue") (pys "blue2") [] rfl rfl (by decide)
      (by decide) (by decide) (by decide) (by decide) (by decide)).2.2.2.2⟩

/-! ## C4: history always uses limit 5, newest first -/

lemma snip80_length_le (s : Str) : (snip80 s).length ≤ 80 := by
  rw [snip80]
  split
  · simp only [List.length_append, List.length_take,
      show (pys "...").length = 3 from rfl]
    omega
  · omega

/-- C4 counterexample: the claim says `/history n` returns at most `n`
items.  The handler never parses an argument: `/history 2` over a
table with six stored messages replies with the rendering of the five
most recent messages, more than the two the claim allows. -/
theorem C4_counterexample_history_two :
    (lastMessagesP tSix 42 5).length = 5 ∧
    handle_text_message cfgW 42 (some 9) (pys "/history 2") none
      ⟨tSix, []⟩ =
      Except.ok ⟨tSix, [Effect.sendMessage 42
        (historyReply (lastMessagesP tSix 42 5))]⟩ ∧
    ¬ (5 ≤ 2) :=
  ⟨rfl, rfl, by decide⟩

/-- C4 amended: any text dispatched to the `/history` branch (the
argument, if any, is ignored) replies with at most 5 items — the
hard-coded default — ordered by creation time descending (non-strictly
under equal timestamps), each displayed snippet truncated at the
80-character display limit with an ellipsis suffix. -/
theorem C4_amended_history_fixed_five_desc (cfg : Ctx) (chat : Int)
    (mid : Option Int) (fn : Option Str) (t : Table) (text : Str)
    (hst : cfg.storeFails = false) (hsd : cfg.sendFails = false)
    (h : startsWith (pyStrip text) (pys "/history") = true) :
    handle_text_message cfg chat mid text fn ⟨t, []⟩ =
      Except.ok ⟨t, [Effect.sendMessage chat
        (if lastMessagesP t chat 5 = [] then pys "No messages stored yet."
         else historyReply (lastMessagesP t chat 5))]⟩ ∧
    (lastMessagesP t chat 5).length ≤ 5 ∧
    List.Pairwise createdDesc (lastMessagesP t chat 5) ∧
    (∀ i ∈ lastMessagesP t chat 5, (snip80 (optD i.text [])).length ≤ 80) := by
  obtain ⟨r, hr⟩ := eq_append_of_isPrefixOf h
  have hne : ¬ (pys "/history" ++ r = pys "/list") := by
    intro heq
    have hp := isPrefixOf_append_self (pys "/history") r
    rw [heq] at hp
    exact absurd hp (by decide)
  refine ⟨?_, List.length_take_le _ _, ?_, fun i _ => snip80_length_le _⟩
  · simp only [handle_text_message, hr,
      show startsWith (pys "/history" ++ r) (pys "/start") = false from rfl,
      show startsWith (pys "/history" ++ r) (pys "/hello") = false from rfl,
      show startsWith (pys "/history" ++ r) (pys "/help") = false from rfl,
      show startsWith (pys "/history" ++ r) (pys "/echo") = false from rfl,
      show startsWith (pys "/history" ++ r) (pys "/save") = false from rfl,
      show startsWith (pys "/history" ++ r) (pys "/get") = false from rfl,
      show startsWith (pys "/history" ++ r) (pys "/getid") = false from rfl,
      show startsWith (pys "/history" ++ r) (pys "/search") = false from rfl,
      show startsWith (pys "/history" ++ r) (pys "/latest") = false from rfl,
      show startsWith (pys "/history" ++ r) (pys "/history") = true from
        isPrefixOf_append_self (pys "/history") r,
      hne, Bool.false_eq_true, ite_true, ite_false]
    rcases hl : lastMessagesP t chat 5 with _ | ⟨x, xs⟩ <;>
      simp only [history_branch, get_last_messages, get_all_messages,
        tquery_ok hst, hl, send_message_ok hsd] <;>
      simp
  · exact List.Pairwise.sublist (List.take_sublist 5 _)
      (List.sorted_insertionSort createdDesc _)

/-- C4 amended witness: `/history 2` over the six-message table
replies with the five most recent messages. -/
theorem C4_amended_witness :
    handle_text_message cfgW 42 (some 9) (pys "/history 2") none
      ⟨tSix, []⟩ =
      Except.ok ⟨tSix, [Effect.sendMessage 42
        (if lastMessagesP tSix 42 5 = [] then pys "No messages stored yet."
         else historyReply (lastMessagesP tSix 42 5))]⟩ ∧
    (lastMessagesP tSix 42 5).length ≤ 5 :=
  ⟨(C4_amended_history_fixed_five_desc cfgW 42 (some 9) none tSix
      (pys "/history 2") rfl rfl (by decide)).1,
   (C4_amended_history_fixed_five_desc cfgW 42 (some 9) none tSix
      (pys "/history 2") rfl rfl (by decide)).2.1⟩

/-! ## C7: the summarize pipeline -/

/-- C7: `/summarize` selects the up-to-10 most recent stored messages
whose stripped text does not start with `/` (`get_last_notes`), orders
the selection oldest-first, builds the single enumerated prompt,
forwards exactly that one prompt to the language-model call, and
replies with the model's result.  The selection is literally the first
ten of the newest-first sort of the non-command messages, every
selected item is a note, and the enumerated list is sorted ascending
by creation time. -/
theorem C7_summarize_pipeline (cfg : Ctx) (chat : Int) (mid : Option Int)
    (fn : Option Str) (t : Table) (content : Str)
    (hst : cfg.storeFails = false) (hsd : cfg.sendFails = false)
    (hkey : truthyOpt cfg.openai_key = true)
    (hai : cfg.aiOutcome = .ok content)
    (hne : lastNotesP t chat 10 ≠ []) :
    handle_text_message cfg chat mid (pys "/summarize") fn ⟨t, []⟩ =
      Except.ok ⟨t,
        [Effect.openaiRequest (summaryPrompt
            (List.insertionSort createdAsc (lastNotesP t chat 10))),
         Effect.sendMessage chat content]⟩ ∧
    lastNotesP t chat 10 =
      (List.insertionSort createdDesc
        ((allMessagesP t chat).filter isNoteItem)).take 10 ∧
    (lastNotesP t chat 10).length ≤ 10 ∧
    (∀ i ∈ lastNotesP t chat 10, isNoteItem i = true) ∧
    List.Pairwise createdAsc
      (List.insertionSort createdAsc (lastNotesP t chat 10)) := by
  refine ⟨?_, rfl, List.length_take_le _ _, ?_, ?_⟩
  · have hred : handle_text_message cfg chat mid (pys "/summarize") fn ⟨t, []⟩ =
        summarize_branch cfg chat ⟨t, []⟩ := rfl
    rw [hred]
    simp only [summarize_branch, summarize_last_notes, get_last_notes,
      get_all_messages, tquery_ok hst, ask_ai, hkey, hai, Bool.not_true,
      Bool.false_eq_true, if_false, hne, ite_false, send_message_ok hsd]
    simp [hne]
  · intro i hi
    have h1 : i ∈ List.insertionSort createdDesc
        ((allMessagesP t chat).filter isNoteItem) :=
      List.mem_of_mem_take (by simpa [lastNotesP] using hi)
    exact (List.mem_filter.mp
      ((List.mem_insertionSort createdDesc).mp h1)).2
  · exact List.sorted_insertionSort createdAsc _

/-- C7 witness: summarizing the six concrete notes issues one prompt
and replies with the model result. -/
theorem C7_summarize_witness :
    handle_text_message cfgW 42 (some 9) (pys "/summarize") none
      ⟨tSix, []⟩ =
      Except.ok ⟨tSix,
        [Effect.openaiRequest (summaryPrompt
            (List.insertionSort createdAsc (lastNotesP tSix 42 10))),
         Effect.sendMessage 42 (pys "AI REPLY")]⟩ :=
  (C7_summarize_pipeline cfgW 42 (some 9) none tSix (pys "AI REPLY")
    rfl rfl (by decide) rfl (by decide)).1

/-! ## C8: stats report fields with unmet preconditions are omitted -/

lemma commandCounts_nil (items : List Item)
    (h : ∀ i ∈ items, isCmdText i = false) : commandCounts items = [] := by
  have hgen : ∀ l : List Item, (∀ i ∈ l, isCmdText i = false) →
      l.foldl (fun m i => if isCmdText i then bump m (cmdTok i) else m) [] = [] := by
    intro l
    induction l with
    | nil => intro _; rfl
    | cons a l ih =>
        intro hl
        simp only [List.foldl_cons, hl a (by simp), Bool.false_eq_true,
          if_false]
        exact ih (fun i hi => hl i (by simp [hi]))
  exact hgen items h

/-- A single stored command message, used by the C8 witness. -/
def tCmd : Table :=
  [{ user_id := pys "42"
     sort_key := pys "msg#1"
     message_id := some 1
     text := some (pys "/help me")
     created_at := some (pys "2025-01-01") }]

/-- No line of the stats report starts with `p`, given that `p` does
not head any of the unconditional lines and that each conditional
segment is either absent or headed by a prefix incompatible with
`p`. -/
lemma stats_all_not (cfg : Ctx) (items : List Item) (p : Str)
    (h0 : startsWith (pys "📊 *Your Personal Stats*") p = false)
    (hE : startsWith [] p = false)
    (h1 : ∀ b, startsWith (pys "• Total stored messages: " ++ b) p = false)
    (h2 : ∀ b, startsWith (pys "• Messages in last 7 days: " ++ b) p = false)
    (h3 : ∀ b, startsWith (pys "• Notes (non-command messages): " ++ b) p = false)
    (h4 : 0 < items.countP (fun i => !isCmdText i) →
      ∀ b, startsWith (pys "• Avg note length: " ++ b) p = false)
    (h5 : listMin (items.filterMap (parseCreated cfg)) = none ∨
      ((∀ b, startsWith (pys "• First stored message: " ++ b) p = false) ∧
       (∀ b, startsWith (pys "• Latest stored message: " ++ b) p = false)))
    (h6 : pyMaxBySnd (commandCounts items) = none ∨
      ∀ b, startsWith (pys "• Most used command: " ++ b) p = false) :
    (stats_lines cfg items).all (fun l => !startsWith l p) = true := by
  simp only [stats_lines]
  rw [List.all_append, List.all_append, List.all_append]
  simp only [Bool.and_eq_true]
  refine ⟨⟨⟨?_, ?_⟩, ?_⟩, ?_⟩
  · simp [h0, hE, h1, h2, h3]
  · by_cases hn : 0 < items.countP (fun i => !isCmdText i)
    · simp [hn, h4 hn]
    · simp [hn]
  · rcases hmin : listMin (items.filterMap (parseCreated cfg)) with _ | f
    · simp [hmin]
    · rcases hmax : listMax (items.filterMap (parseCreated cfg)) with _ | l
      · simp [hmin, hmax]
      · rcases h5 with h5 | ⟨h5a, h5b⟩
        · exact absurd hmin (by simp [h5])
        · simp [hmin, hmax, h5a, h5b]
  · rcases hcm : pyMaxBySnd (commandCounts items) with _ | ⟨c, n⟩
    · simp [hcm]
    · rcases h6 with h6 | h6
      · exact absurd hcm (by simp [h6])
      · rcases c with _ | ⟨c0, cr⟩
        · simp [hcm]
        · simp [hcm, h6, List.append_assoc]

/-- C8: over a nonempty message set, `compute_personal_stats` returns
the joined report lines, and every report field whose precondition is
unmet is omitted rather than printed with a zero or empty value: with
only command messages (zero notes) the average-note-length line is
absent (and the average, guarded by `notes_count > 0`, is never
computed, so no division by zero occurs); with no parseable timestamp
the first/latest lines are absent; with no command messages the
most-used-command line is absent. -/
theorem C8_stats_fields_omitted (cfg : Ctx) (t : Table) (uid : Int)
    (hst : cfg.storeFails = false)
    (hne : queryP t (intToStr uid) (pys "msg#") ≠ []) :
    compute_personal_stats cfg t uid =
      Except.ok (joinWith (pys "\n")
        (stats_lines cfg (queryP t (intToStr uid) (pys "msg#")))) ∧
    ((queryP t (intToStr uid) (pys "msg#")).all isCmdText = true →
      (stats_lines cfg (queryP t (intToStr uid) (pys "msg#"))).all
        (fun l => !startsWith l (pys "• Avg note length:")) = true) ∧
    ((queryP t (intToStr uid) (pys "msg#")).all
        (fun i => (parseCreated cfg i).isNone) = true →
      (stats_lines cfg (queryP t (intToStr uid) (pys "msg#"))).all
        (fun l => !startsWith l (pys "• First stored message:")) = true ∧
      (stats_lines cfg (queryP t (intToStr uid) (pys "msg#"))).all
        (fun l => !startsWith l (pys "• Latest stored message:")) = true) ∧
    ((queryP t (intToStr uid) (pys "msg#")).all
        (fun i => !isCmdText i) = true →
      (stats_lines cfg (queryP t (intToStr uid) (pys "msg#"))).all
        (fun l => !startsWith l (pys "• Most used command:")) = true) := by
  set items := queryP t (intToStr uid) (pys "msg#") with hitems
  refine ⟨?_, ?_, ?_, ?_⟩
  · rw [compute_personal_stats, get_all_messages, tquery_ok hst, ← hitems]
    simp [hne]
  · intro hcmd
    have hnotes : items.countP (fun i => !isCmdText i) = 0 := by
      rw [List.countP_eq_zero]
      intro a ha
      simp [List.all_eq_true.mp hcmd a ha]
    refine stats_all_not cfg items _ (by decide) (by decide)
      (fun b => not_isPrefixOf_append b (by decide) (by decide))
      (fun b => not_isPrefixOf_append b (by decide) (by decide))
      (fun b => not_isPrefixOf_append b (by decide) (by decide))
      (fun hn => absurd hn (by simp [hnotes]))
      (Or.inr ⟨fun b => not_isPrefixOf_append b (by decide) (by decide),
        fun b => not_isPrefixOf_append b (by decide) (by decide)⟩)
      (Or.inr (fun b => not_isPrefixOf_append b (by decide) (by decide)))
  · intro hunp
    have hct : items.filterMap (parseCreated cfg) = [] := by
      rw [List.filterMap_eq_nil_iff]
      intro a ha
      have := List.all_eq_true.mp hunp a ha
      simpa [Option.isNone_iff_eq_none] using this
    constructor
    · refine stats_all_not cfg items _ (by decide) (by decide)
        (fun b => not_isPrefixOf_append b (by decide) (by decide))
        (fun b => not_isPrefixOf_append b (by decide) (by decide))
        (fun b => not_isPrefixOf_append b (by decide) (by decide))
        (fun _ b => not_isPrefixOf_append b (by decide) (by decide))
        (Or.inl (by rw [hct]; rfl))
        (Or.inr (fun b => not_isPrefixOf_append b (by decide) (by decide)))
    · refine stats_all_not cfg items _ (by decide) (by decide)
        (fun b => not_isPrefixOf_append b (by decide) (by decide))
        (fun b => not_isPrefixOf_append b (by decide) (by decide))
        (fun b => not_isPrefixOf_append b (by decide) (by decide))
        (fun _ b => not_isPrefixOf_append b (by decide) (by decide))
        (Or.inl (by rw [hct]; rfl))
        (Or.inr (fun b => not_isPrefixOf_append b (by decide) (by decide)))
  · intro hnc
    have hcc : commandCounts items = [] :=
      commandCounts_nil items (fun i hi => by
        simpa using List.all_eq_true.mp hnc i hi)
    refine stats_all_not cfg items _ (by decide) (by decide)
      (fun b => not_isPrefixOf_append b (by decide) (by decide))
      (fun b => not_isPrefixOf_append b (by decide) (by decide))
      (fun b => not_isPrefixOf_append b (by decide) (by decide))
      (fun _ b => not_isPrefixOf_append b (by decide) (by decide))
      (Or.inr ⟨fun b => not_isPrefixOf_append b (by decide) (by decide),
        fun b => not_isPrefixOf_append b (by decide) (by decide)⟩)
      (Or.inl (by rw [hcc]; rfl))

/-- C8 witness: with a single stored command message and no parseable
timestamps, the report is returned and omits the average-note-length
line. -/
theorem C8_stats_witness :
    compute_personal_stats cfgW tCmd 42 =
      Except.ok (joinWith (pys "\n")
        (stats_lines cfgW (queryP tCmd (intToStr 42) (pys "msg#")))) ∧
    (stats_lines cfgW (queryP tCmd (intToStr 42) (pys "msg#"))).all
      (fun l => !startsWith l (pys "• Avg note length:")) = true :=
  ⟨(C8_stats_fields_omitted cfgW tCmd 42 rfl (by decide)).1,
   (C8_stats_fields_omitted cfgW tCmd 42 rfl (by decide)).2.1 (by decide)⟩

end TgBot
